import Mathlib

/-!
Verification development for the LLM-response reliability layer of the
Chat-app dashboard: the retry/backoff controller, JSON extraction and
repair pipeline, validator/normalizer, result cache and fallback
generators found in `generate-visualization` (server action),
`auto-visualization-generator.ts` and `analyze-data` (server action).

The TypeScript sources are embedded shallowly:

* JavaScript numbers are modelled as exact decimals `mantissa * 10 ^ exp`
  (plus `Infinity`/`NaN`), so arithmetic is exact where doubles would
  round; none of the verified claims depends on float rounding.
* `JSON.parse` / `JSON.stringify` are modelled by an executable strict
  JSON parser and printer over `List Char`.
* The regex-based textual repairs of `cleanJsonString` are modelled by
  character-list scanners implementing exactly the global-replace
  semantics of each regular expression in source order.
* The model call is an oracle `Nat → ModelOutcome` giving the text or
  thrown error message of each attempt; `Math.random` is an oracle
  `Nat → Nat`; wall-clock time is an explicit `now` parameter and sleeps
  are recorded in a trace.
-/

/-! ### Exact JavaScript-style numbers -/

/-- A JavaScript number value, exactly: a decimal `mant * 10 ^ exp`,
a signed infinity, or `NaN`. -/
inductive JNum where
  | dec (mant : Int) (exp : Int)
  | inf (neg : Bool)
  | nan
deriving DecidableEq, Repr

/-- Align two decimal exponents and compare mantissas (numeric equality
of exact decimals). -/
def JNum.alignedPair (m1 e1 m2 e2 : Int) : Int × Int :=
  if e1 ≤ e2 then (m1, m2 * 10 ^ (e2 - e1).toNat)
  else (m1 * 10 ^ (e1 - e2).toNat, m2)

/-- JavaScript `===` on numbers: numeric equality; `NaN` equals nothing. -/
def JNum.eqB : JNum → JNum → Bool
  | .dec m1 e1, .dec m2 e2 => (JNum.alignedPair m1 e1 m2 e2).1 = (JNum.alignedPair m1 e1 m2 e2).2
  | .inf n1, .inf n2 => n1 = n2
  | _, _ => false

/-- `SameValueZero` on numbers (used by `Set`): like `===` but `NaN`
matches `NaN`. -/
def JNum.svzB : JNum → JNum → Bool
  | .nan, .nan => true
  | a, b => JNum.eqB a b

/-- Addition of JavaScript numbers (exact on decimals). -/
def JNum.add : JNum → JNum → JNum
  | .nan, _ => .nan
  | _, .nan => .nan
  | .inf n1, .inf n2 => if n1 = n2 then .inf n1 else .nan
  | .inf n, .dec _ _ => .inf n
  | .dec _ _, .inf n => .inf n
  | .dec m1 e1, .dec m2 e2 =>
    let e := min e1 e2
    .dec (m1 * 10 ^ (e1 - e).toNat + m2 * 10 ^ (e2 - e).toNat) e

/-- Multiply a JavaScript number by 1000 (used for seconds → ms). -/
def JNum.mul1000 : JNum → JNum
  | .dec m e => .dec m (e + 3)
  | .inf n => .inf n
  | .nan => .nan

/-- A decimal from a natural number. -/
def JNum.ofNat (n : Nat) : JNum := .dec (Int.ofNat n) 0

/-- JavaScript truthiness of a number: `0` and `NaN` are falsy. -/
def JNum.truthy : JNum → Bool
  | .dec m _ => m ≠ 0
  | .inf _ => true
  | .nan => false

/-! ### Character-level helpers (JavaScript string semantics) -/

/-- The left curly bracket character, by code point. -/
def lcurly : Char := Char.ofNat 123

/-- The right curly bracket character, by code point. -/
def rcurly : Char := Char.ofNat 125

/-- JavaScript regex `\s` / `String.prototype.trim` whitespace. -/
def isJsWs (c : Char) : Bool :=
  c = ' ' || c = '\t' || c = '\n' || c = '\r' || c = '\x0b' || c = '\x0c' ||
  c = ' ' || c = ' ' || (' ' ≤ c && c ≤ ' ') ||
  c = ' ' || c = ' ' || c = ' ' || c = ' ' || c = '　' || c = '﻿'

/-- ASCII decimal digit (JavaScript regex `\d`). -/
def isDig (c : Char) : Bool := '0' ≤ c && c ≤ '9'

/-- Does `pat` occur at the head of `l`? (`String.prototype.startsWith`
at a fixed offset.) -/
def headMatches : List Char → List Char → Bool
  | [], _ => true
  | _ :: _, [] => false
  | p :: ps, c :: cs => p = c && headMatches ps cs

/-- Substring occurrence on character lists (`String.prototype.includes`). -/
def hasSubL (pat : List Char) : List Char → Bool
  | [] => headMatches pat []
  | c :: cs => headMatches pat (c :: cs) || hasSubL pat cs

/-- `s.includes(pat)`. -/
def hasSubstr (s pat : String) : Bool := hasSubL pat.data s.data

/-- Lowercase a string (ASCII case mapping; `toLowerCase` restricted to
the ASCII letters the sources compare). -/
def toLowerStr (s : String) : String := String.mk (s.data.map Char.toLower)

/-- `String.prototype.trim`: strip JavaScript whitespace at both ends. -/
def trimJs (s : String) : String :=
  String.mk (((s.data.dropWhile isJsWs).reverse.dropWhile isJsWs).reverse)

/-- The first `n` characters of a string (`substring(0, n)` with clamping). -/
def takeStr (n : Nat) (s : String) : String := String.mk (s.data.take n)

/-- JavaScript `String.prototype.substring(a, b)`: indices are clamped to
the string and swapped when `a > b`. -/
def jsSubstring (s : String) (a b : Nat) : String :=
  let n := s.data.length
  let a' := min a n
  let b' := min b n
  let lo := min a' b'
  let hi := max a' b'
  String.mk ((s.data.drop lo).take (hi - lo))

/-- `charAt(0).toUpperCase() + slice(1)` (ASCII case mapping). -/
def capitalizeJs (s : String) : String :=
  match s.data with
  | [] => ""
  | c :: r => String.mk (c.toUpper :: r)

/-- Case-insensitive `headMatches` (ASCII case folding, regex `/i`). -/
def headMatchesCI : List Char → List Char → Bool
  | [], _ => true
  | _ :: _, [] => false
  | p :: ps, c :: cs => p.toLower = c.toLower && headMatchesCI ps cs

/-- Match a literal case-insensitively at the head, returning the rest. -/
def ciAfter (pat : String) (l : List Char) : Option (List Char) :=
  if headMatchesCI pat.data l then some (l.drop pat.data.length) else none

/-- Match a literal case-sensitively at the head, returning the rest. -/
def litAfter (pat : String) (l : List Char) : Option (List Char) :=
  if headMatches pat.data l then some (l.drop pat.data.length) else none

/-- First index of a character (`indexOf`), if present. -/
def idxOfChar (c : Char) : List Char → Option Nat
  | [] => none
  | x :: xs => if x = c then some 0 else (idxOfChar c xs).map (· + 1)

/-- Last index of a character (`lastIndexOf`), if present. -/
def lastIdxOfChar (c : Char) : List Char → Option Nat
  | [] => none
  | x :: xs =>
    match lastIdxOfChar c xs with
    | some i => some (i + 1)
    | none => if x = c then some 0 else none

/-- `split(",")` on a character list: always at least one piece, empty
pieces preserved (JavaScript `String.prototype.split`). -/
def splitCommaL : List Char → List (List Char)
  | [] => [[]]
  | c :: r =>
    if c = ',' then [] :: splitCommaL r
    else
      match splitCommaL r with
      | p :: ps => (c :: p) :: ps
      | [] => [[c]]

/-- `s.split(",")` as strings. -/
def splitCommaS (s : String) : List String := (splitCommaL s.data).map String.mk

/-- Decimal digits of a natural number, most significant first. -/
def natDigitsGo : Nat → Nat → List Char → List Char
  | 0, _, acc => acc
  | _ + 1, n, acc =>
    let d := Char.ofNat (48 + n % 10)
    if n < 10 then d :: acc else natDigitsGo n (n / 10) (d :: acc)

/-- Decimal digit characters of a natural number. -/
def natDigits (n : Nat) : List Char := natDigitsGo (n + 1) n []

/-- Decimal string of a natural number. -/
def natToString (n : Nat) : String := String.mk (natDigits n)

/-- Value of a list of decimal digit characters. -/
def digitsVal (ds : List Char) : Nat :=
  ds.foldl (fun a c => a * 10 + (c.toNat - 48)) 0

/-- Leftmost-match scan: try the head matcher at every position, leftmost
first (regex search without `/g`). -/
def scanForL (m : List Char → Option α) : List Char → Option α
  | [] => m []
  | c :: cs =>
    match m (c :: cs) with
    | some r => some r
    | none => scanForL m cs

/-- JavaScript number printing for exact decimals (plain notation; the
sources only print numbers in the plain range). -/
def JNum.render : JNum → String
  | .nan => "NaN"
  | .inf false => "Infinity"
  | .inf true => "-Infinity"
  | .dec m e =>
    if m = 0 then "0"
    else
      let sign := if m < 0 then "-" else ""
      let ds := natDigits m.natAbs
      let z := (ds.reverse.takeWhile (· = '0')).length
      let ds' := ds.take (ds.length - z)
      let e' := e + z
      if 0 ≤ e' then
        sign ++ String.mk (ds' ++ List.replicate e'.toNat '0')
      else
        let k := (-e').toNat
        if k < ds'.length then
          sign ++ String.mk (ds'.take (ds'.length - k)) ++ "." ++ String.mk (ds'.drop (ds'.length - k))
        else
          sign ++ "0." ++ String.mk (List.replicate (k - ds'.length) '0' ++ ds')

/-! ### JSON values -/

/-- A JSON value as produced by `JSON.parse` (object keys are unique and
in insertion order, later duplicates overwriting in place). -/
inductive Json where
  | null
  | bool (b : Bool)
  | num (n : JNum)
  | str (s : String)
  | arr (elems : List Json)
  | obj (fields : List (String × Json))
deriving Repr

/-- Property lookup in an object field list (keys are unique). -/
def objGet : List (String × Json) → String → Option Json
  | [], _ => none
  | (k', v) :: fs, k => if k' = k then some v else objGet fs k

/-- JavaScript property assignment on a field list: overwrite in place,
append when absent. -/
def objSet : List (String × Json) → String → Json → List (String × Json)
  | [], k, v => [(k, v)]
  | (k', v') :: fs, k, v => if k' = k then (k', v) :: fs else (k', v') :: objSet fs k v

/-- Remove a key from a field list. -/
def objRemove (k : String) (fs : List (String × Json)) : List (String × Json) :=
  fs.filter (fun f => f.1 ≠ k)

/-- Prepend an earlier object member in front of later ones: the key
keeps its first position but a later duplicate's value wins, as in
JavaScript object literals. -/
def objInsertFront (k : String) (v : Json) (fs : List (String × Json)) :
    List (String × Json) :=
  match objGet fs k with
  | some v' => (k, v') :: objRemove k fs
  | none => (k, v) :: fs

/-- Canonical array-index string (`"0"`, `"17"`; no leading zeros), as
used by property access on arrays. -/
def parseIdx (s : String) : Option Nat :=
  match s.data with
  | [] => none
  | ['0'] => some 0
  | c :: cs =>
    if isDig c && c ≠ '0' && cs.all isDig then some (digitsVal (c :: cs)) else none

/-- JavaScript property read `base[key]`: `.error` models the `TypeError`
thrown on `null`; `.ok none` is `undefined`. -/
def jsGetProp : Json → String → Except Unit (Option Json)
  | .null, _ => .error ()
  | .obj fs, k => .ok (objGet fs k)
  | .arr xs, k =>
    .ok (match parseIdx k with
         | some i => xs.get? i
         | none => none)
  | .str s, k =>
    .ok (match parseIdx k with
         | some i => (s.data.get? i).map (fun c => .str (String.mk [c]))
         | none => none)
  | _, _ => .ok none

/-- Property read on a possibly-`undefined` base, used only after a
truthiness guard on the base (so the base is never `undefined`). -/
def jsGetPropU (b : Option Json) (k : String) : Option Json :=
  match b with
  | some j =>
    match jsGetProp j k with
    | .ok v => v
    | .error _ => none
  | none => none

/-- `Object.keys`: throws on `null`; index strings for arrays and
strings; `[]` for other primitives. -/
def jsKeys : Json → Except Unit (List String)
  | .null => .error ()
  | .obj fs => .ok (fs.map (·.1))
  | .arr xs => .ok ((List.range xs.length).map natToString)
  | .str s => .ok ((List.range s.data.length).map natToString)
  | _ => .ok []

/-- `typeof v === "object"` (true for objects, arrays and `null`). -/
def typeofObject : Json → Bool
  | .obj _ => true
  | .arr _ => true
  | .null => true
  | _ => false

/-- JavaScript truthiness of a JSON value. -/
def jsTruthy : Json → Bool
  | .null => false
  | .bool b => b
  | .num n => n.truthy
  | .str s => s ≠ ""
  | .arr _ => true
  | .obj _ => true

/-- Truthiness of a possibly-`undefined` value. -/
def jsTruthyU : Option Json → Bool
  | some j => jsTruthy j
  | none => false

/-! ### `JSON.parse`: a strict JSON parser -/

/-- JSON-grammar whitespace (space, tab, LF, CR only). -/
def jsonWs (c : Char) : Bool := c = ' ' || c = '\t' || c = '\n' || c = '\r'

/-- One-character escapes of JSON strings. -/
def jsonUnescape : Char → Option Char
  | '"' => some '"'
  | '\\' => some '\\'
  | '/' => some '/'
  | 'b' => some '\x08'
  | 'f' => some '\x0c'
  | 'n' => some '\n'
  | 'r' => some '\r'
  | 't' => some '\t'
  | _ => none

/-- Hex digit value. -/
def hexDigVal (c : Char) : Option Nat :=
  if '0' ≤ c && c ≤ '9' then some (c.toNat - 48)
  else if 'a' ≤ c && c ≤ 'f' then some (c.toNat - 87)
  else if 'A' ≤ c && c ≤ 'F' then some (c.toNat - 55)
  else none

/-- Body of a JSON string after the opening quote; rejects raw control
characters like `JSON.parse`. -/
def pJsonStr (acc : List Char) : List Char → Option (String × List Char)
  | [] => none
  | '"' :: r => some (String.mk acc.reverse, r)
  | '\\' :: 'u' :: a :: b :: c :: d :: r =>
    match hexDigVal a, hexDigVal b, hexDigVal c, hexDigVal d with
    | some va, some vb, some vc, some vd =>
      pJsonStr (Char.ofNat (((va * 16 + vb) * 16 + vc) * 16 + vd) :: acc) r
    | _, _, _, _ => none
  | '\\' :: e :: r =>
    match jsonUnescape e with
    | some ch => pJsonStr (ch :: acc) r
    | none => none
  | c :: r => if c.toNat < 32 then none else pJsonStr (c :: acc) r

/-- JSON integer digits: `0` alone or a nonzero first digit. -/
def pJsonIntDigits (l : List Char) : Option (List Char × List Char) :=
  match l with
  | '0' :: r => some (['0'], r)
  | c :: _ =>
    if isDig c && c ≠ '0' then some (l.takeWhile isDig, l.dropWhile isDig) else none
  | [] => none

/-- A JSON number literal (strict grammar of `JSON.parse`: a dot or an
exponent marker must be followed by at least one digit). -/
def pJsonNum (l : List Char) : Option (JNum × List Char) :=
  let (neg, l1) := match l with
                   | '-' :: r => (true, r)
                   | _ => (false, l)
  match pJsonIntDigits l1 with
  | none => none
  | some (ids, l2) =>
    let frac : Option (List Char × List Char) :=
      match l2 with
      | '.' :: r =>
        if (r.takeWhile isDig).isEmpty then none
        else some (r.takeWhile isDig, r.dropWhile isDig)
      | _ => some ([], l2)
    match frac with
    | none => none
    | some (fds, l3) =>
      let expo : Option (Int × List Char) :=
        match l3 with
        | 'e' :: r | 'E' :: r =>
          let (es, r1) : Bool × List Char := match r with
                                             | '+' :: r' => (false, r')
                                             | '-' :: r' => (true, r')
                                             | _ => (false, r)
          let ds := r1.takeWhile isDig
          if ds.isEmpty then none
          else some ((if es then -(digitsVal ds : Int) else (digitsVal ds : Int)), r1.dropWhile isDig)
        | _ => some (0, l3)
      match expo with
      | none => none
      | some (ex, l4) =>
        let mant : Int := (if neg then -1 else 1) * (digitsVal (ids ++ fds) : Int)
        some (.dec mant (ex - fds.length), l4)

mutual

/-- A JSON value (strict `JSON.parse` grammar), on fuel. -/
def pJsonVal : Nat → List Char → Option (Json × List Char)
  | 0, _ => none
  | fuel + 1, l =>
    match l.dropWhile jsonWs with
    | 'n' :: 'u' :: 'l' :: 'l' :: r => some (.null, r)
    | 't' :: 'r' :: 'u' :: 'e' :: r => some (.bool true, r)
    | 'f' :: 'a' :: 'l' :: 's' :: 'e' :: r => some (.bool false, r)
    | '"' :: r => (pJsonStr [] r).map (fun (s, r') => (.str s, r'))
    | '[' :: r =>
      (match r.dropWhile jsonWs with
       | ']' :: r' => some (.arr [], r')
       | _ => (pJsonItems fuel r).map (fun (es, r') => (.arr es, r')))
    | c :: r =>
      if c = lcurly then
        match r.dropWhile jsonWs with
        | c' :: r' =>
          if c' = rcurly then some (.obj [], r')
          else (pJsonFields fuel (c' :: r')).map (fun (fs, r'') => (.obj fs, r''))
        | [] => none
      else if c = '-' || isDig c then
        (pJsonNum (c :: r)).map (fun (n, r') => (.num n, r'))
      else none
    | [] => none

/-- Comma-separated array items up to `]`. -/
def pJsonItems : Nat → List Char → Option (List Json × List Char)
  | 0, _ => none
  | fuel + 1, l =>
    match pJsonVal fuel l with
    | none => none
    | some (v, r) =>
      match r.dropWhile jsonWs with
      | ',' :: r' => (pJsonItems fuel r').map (fun (vs, r'') => (v :: vs, r''))
      | ']' :: r' => some ([v], r')
      | _ => none

/-- Comma-separated object members up to the closing brace; duplicate
keys overwrite in place like JavaScript objects. -/
def pJsonFields : Nat → List Char → Option (List (String × Json) × List Char)
  | 0, _ => none
  | fuel + 1, l =>
    match l.dropWhile jsonWs with
    | '"' :: r =>
      match pJsonStr [] r with
      | none => none
      | some (k, r1) =>
        match r1.dropWhile jsonWs with
        | ':' :: r2 =>
          match pJsonVal fuel r2 with
          | none => none
          | some (v, r3) =>
            match r3.dropWhile jsonWs with
            | ',' :: r4 =>
              (pJsonFields fuel r4).map (fun (fs, r5) => (objInsertFront k v fs, r5))
            | c :: r4 =>
              if c = rcurly then some ([(k, v)], r4) else none
            | [] => none
        | _ => none
    | _ => none

end

/-- `JSON.parse`: run the grammar with ample fuel (every step of the
mutual parser consumes input, so `2 * length + 8` never runs dry on a
string the grammar accepts) and require all remaining input to be
whitespace. -/
def parseJson (s : String) : Option Json :=
  match pJsonVal (2 * s.data.length + 8) s.data with
  | some (j, r) => if (r.dropWhile jsonWs).isEmpty then some j else none
  | none => none

/-! ### `JSON.stringify` -/

/-- Escape one character for a JSON string literal. -/
def jsonEscapeChar (c : Char) : List Char :=
  if c = '"' then ['\\', '"']
  else if c = '\\' then ['\\', '\\']
  else if c = '\n' then ['\\', 'n']
  else if c = '\r' then ['\\', 'r']
  else if c = '\t' then ['\\', 't']
  else if c = '\x08' then ['\\', 'b']
  else if c = '\x0c' then ['\\', 'f']
  else if c.toNat < 32 then
    '\\' :: 'u' :: '0' :: '0' ::
      [(natDigits (c.toNat / 16)).headD '0', "0123456789abcdef".data.getD (c.toNat % 16) '0']
  else [c]

/-- A JSON string literal. -/
def jsonQuote (s : String) : List Char :=
  '"' :: (s.data.foldr (fun c acc => jsonEscapeChar c ++ acc) ['"'])

mutual

/-- Compact `JSON.stringify` of a value. -/
def stringifyJ : Json → List Char
  | .null => "null".data
  | .bool true => "true".data
  | .bool false => "false".data
  | .num n => (JNum.render n).data
  | .str s => jsonQuote s
  | .arr xs => '[' :: stringifyItems xs ++ [']']
  | .obj fs => lcurly :: stringifyFields fs ++ [rcurly]

/-- Array items, comma separated. -/
def stringifyItems : List Json → List Char
  | [] => []
  | [x] => stringifyJ x
  | x :: y :: r => stringifyJ x ++ ',' :: stringifyItems (y :: r)

/-- Object members, comma separated. -/
def stringifyFields : List (String × Json) → List Char
  | [] => []
  | [(k, v)] => jsonQuote k ++ ':' :: stringifyJ v
  | (k, v) :: f :: r => jsonQuote k ++ ':' :: stringifyJ v ++ ',' :: stringifyFields (f :: r)

end

/-- `JSON.stringify` as a string. -/
def jsonStringify (j : Json) : String := String.mk (stringifyJ j)

/-! ### JavaScript number coercions -/

/-- Decimal literal prefix for `parseFloat` and full-string decimal for
`Number(...)`: sign, `Infinity`, digits with optional fraction and
exponent. Returns the value and the unconsumed rest. -/
def decLiteralVal (l : List Char) : Option (JNum × List Char) :=
  let (neg, l1) := match l with
                   | '-' :: r => (true, r)
                   | '+' :: r => (false, r)
                   | _ => (false, l)
  match litAfter "Infinity" l1 with
  | some r => some (.inf neg, r)
  | none =>
    let ids := l1.takeWhile isDig
    let l2 := l1.dropWhile isDig
    let (fds, l3) := match l2 with
                     | '.' :: r => (r.takeWhile isDig, r.dropWhile isDig)
                     | _ => ([], l2)
    if ids.isEmpty && fds.isEmpty then none
    else
      let (ex, l4) : Int × List Char :=
        match l3 with
        | 'e' :: r | 'E' :: r =>
          let (es, r1) : Bool × List Char := match r with
                                             | '+' :: r' => (false, r')
                                             | '-' :: r' => (true, r')
                                             | _ => (false, r)
          let ds := r1.takeWhile isDig
          if ds.isEmpty then (0, l3)
          else ((if es then -(digitsVal ds : Int) else (digitsVal ds : Int)), r1.dropWhile isDig)
        | _ => (0, l3)
      let mant : Int := (if neg then -1 else 1) * (digitsVal (ids ++ fds) : Int)
      some (.dec mant (ex - fds.length), l4)

/-- `Number.parseFloat`: leading whitespace skipped, longest valid
decimal-literal prefix, `NaN` when there is none. -/
def parseFloatJs (s : String) : JNum :=
  match decLiteralVal (s.data.dropWhile isJsWs) with
  | some (v, _) => v
  | none => .nan

/-- `Number(string)`: whole trimmed string must be a numeric literal;
the empty string is `0`; binary/octal/hex literals are allowed. -/
def numberFromString (s : String) : JNum :=
  let l := ((s.data.dropWhile isJsWs).reverse.dropWhile isJsWs).reverse
  match l with
  | [] => .dec 0 0
  | _ =>
    let radix : Option (Nat × (Char → Option Nat)) :=
      match litAfter "0x" l <|> litAfter "0X" l with
      | some _ => some (16, hexDigVal)
      | none =>
        match litAfter "0b" l <|> litAfter "0B" l with
        | some _ => some (2, fun c => if c = '0' then some 0 else if c = '1' then some 1 else none)
        | none =>
          match litAfter "0o" l <|> litAfter "0O" l with
          | some _ => some (8, fun c => if '0' ≤ c && c ≤ '7' then some (c.toNat - 48) else none)
          | none => none
    match radix with
    | some (base, dv) =>
      let ds := l.drop 2
      if ds ≠ [] && ds.all (fun c => (dv c).isSome) then
        .dec (Int.ofNat (ds.foldl (fun a c => a * base + (dv c).getD 0) 0)) 0
      else .nan
    | none =>
      match decLiteralVal l with
      | some (v, []) => v
      | _ => .nan

mutual

/-- JavaScript `String(v)` coercion of a JSON value. -/
def jsToString : Json → String
  | .null => "null"
  | .bool true => "true"
  | .bool false => "false"
  | .num n => n.render
  | .str s => s
  | .arr xs => arrayJoin xs
  | .obj _ => "[object Object]"

/-- `Array.prototype.join(",")`: `null` elements become empty. -/
def arrayJoin : List Json → String
  | [] => ""
  | [x] => match x with
           | .null => ""
           | _ => jsToString x
  | x :: y :: r =>
    (match x with
     | .null => ""
     | _ => jsToString x) ++ "," ++ arrayJoin (y :: r)

end

/-- `String(v)` where `v` may be `undefined`. -/
def jsToStringU : Option Json → String
  | none => "undefined"
  | some j => jsToString j

/-- JavaScript `Number(v)` coercion of a JSON value (arrays coerce via
their joined string; plain objects are `NaN`). -/
def jsNumber : Json → JNum
  | .null => .dec 0 0
  | .bool b => .dec (if b then 1 else 0) 0
  | .num n => n
  | .str s => numberFromString s
  | .arr xs => numberFromString (arrayJoin xs)
  | .obj _ => .nan

/-- `Number(v)` where `v` may be `undefined` (which is `NaN`). -/
def jsNumberU : Option Json → JNum
  | none => .nan
  | some j => jsNumber j

mutual

/-- Structural equality of JSON values (used below to model `===` and
`SameValueZero` on objects/arrays; JavaScript compares those by
identity, which a value model cannot express — for the scalar values the
sources compare, `===` is exactly this). -/
def jsonBeq : Json → Json → Bool
  | .null, .null => true
  | .bool a, .bool b => a = b
  | .num a, .num b => a = b
  | .str a, .str b => a = b
  | .arr a, .arr b => jsonBeqL a b
  | .obj a, .obj b => jsonBeqF a b
  | _, _ => false

/-- Structural equality on element lists. -/
def jsonBeqL : List Json → List Json → Bool
  | [], [] => true
  | a :: as', b :: bs => jsonBeq a b && jsonBeqL as' bs
  | _, _ => false

/-- Structural equality on field lists. -/
def jsonBeqF : List (String × Json) → List (String × Json) → Bool
  | [], [] => true
  | (k1, v1) :: as', (k2, v2) :: bs => k1 = k2 && jsonBeq v1 v2 && jsonBeqF as' bs
  | _, _ => false

end

/-- JavaScript `===` on JSON values: numbers numerically (`NaN` unequal
to itself), other scalars structurally. -/
def jsStrictEq (a b : Json) : Bool :=
  match a, b with
  | .num x, .num y => JNum.eqB x y
  | _, _ => jsonBeq a b

/-- `SameValueZero` (the `Set` membership relation): like `===` but
`NaN` matches `NaN`. -/
def jsSameValueZero (a b : Json) : Bool :=
  match a, b with
  | .num x, .num y => JNum.svzB x y
  | _, _ => jsonBeq a b

/-- `===` on possibly-`undefined` values. -/
def jsStrictEqU : Option Json → Option Json → Bool
  | none, none => true
  | some a, some b => jsStrictEq a b
  | _, _ => false

/-- `SameValueZero` on possibly-`undefined` values. -/
def jsSvzU : Option Json → Option Json → Bool
  | none, none => true
  | some a, some b => jsSameValueZero a b
  | _, _ => false

/-- `Array.from(new Set(xs))`: first occurrences, in order, under
`SameValueZero`. -/
def dedupSVZ : List (Option Json) → List (Option Json)
  | [] => []
  | x :: r => x :: dedupSVZ (r.filter (fun y => !jsSvzU x y))
termination_by l => l.length
decreasing_by simp only [List.length_cons]; exact Nat.lt_succ_of_le (List.length_filter_le _ _)

/-! ### The textual JSON repairs of `cleanJsonString`

Each regular-expression replace of the source is one left-to-right scan:
at every position the pattern is tried; on a match the replacement is
emitted and scanning resumes after the matched text, otherwise one
character is copied.  Every pattern starts with a literal character
(`[`, `,`, `.` or `/`), and the greedy subpatterns (`\s*`, `[^"]*`,
`\d+`) are followed by characters they cannot match, so the JavaScript
backtracking search is equivalent to the deterministic maximal-munch
matchers below.  The fuel argument is the input length; a match always
consumes at least one character beyond the scan position (every matcher
returns a strict suffix), so the fuel never runs out. -/

/-- One global-replace scan: patterns anchored at a start character
`start`, continuation matcher `m` on the rest, replacement `rep`. -/
def scanRw (start : Char) (m : List Char → Option (List Char)) (rep : List Char) :
    Nat → List Char → List Char
  | 0, l => l
  | _ + 1, [] => []
  | fuel + 1, c :: cs =>
    if c = start then
      match m cs with
      | some rest => rep ++ scanRw start m rep fuel rest
      | none => c :: scanRw start m rep fuel cs
    else c :: scanRw start m rep fuel cs

/-- Regex `\s*` (maximal munch). -/
def dropJsWs (l : List Char) : List Char := l.dropWhile isJsWs

/-- A required literal character. -/
def expectCh (c : Char) : List Char → Option (List Char) :=
  fun l => match l with
           | x :: r => if x = c then some r else none
           | [] => none

/-- Regex `\.{3}`: exactly three literal dots. -/
def expectDots3 : List Char → Option (List Char)
  | a :: b :: c :: r => if a = '.' ∧ b = '.' ∧ c = '.' then some r else none
  | _ => none

/-- Regex `\s*\.{3}\s*c` for a closing literal `c`. -/
def dotsThen (c : Char) (l : List Char) : Option (List Char) := do
  let r ← expectDots3 (dropJsWs l)
  expectCh c (dropJsWs r)

/-- Regex `"[^"]*"`: a quoted span (greedy body up to the next quote). -/
def takeQuoted : List Char → Option (List Char)
  | x :: r =>
    if x = '"' then
      match r.dropWhile (· ≠ '"') with
      | y :: rest => if y = '"' then some rest else none
      | [] => none
    else none
  | [] => none

/-- Regex `\d+` (at least one digit, maximal munch). -/
def takeDigs1 (l : List Char) : Option (List Char) :=
  if (l.takeWhile isDig).isEmpty then none else some (l.dropWhile isDig)

/-- After `[`: rule `/\[\s*\.{3}\s*\]/g → "[]"`. -/
def mEllArr (cs : List Char) : Option (List Char) := dotsThen ']' cs

/-- After `[`: rule `/\[\s*"[^"]*"\s*,\s*\.{3}\s*\]/g → "[\"placeholder\"]"`. -/
def mEllStrArr (cs : List Char) : Option (List Char) := do
  let a ← takeQuoted (dropJsWs cs)
  let b ← expectCh ',' (dropJsWs a)
  dotsThen ']' b

/-- After `[`: rule `/\[\s*\d+\s*,\s*\.{3}\s*\]/g → "[0]"`. -/
def mEllNumArr (cs : List Char) : Option (List Char) := do
  let a ← takeDigs1 (dropJsWs cs)
  let b ← expectCh ',' (dropJsWs a)
  dotsThen ']' b

/-- After `,`: rule `/,\s*\.{3}\s*,/g → ","`. -/
def mEllMid (cs : List Char) : Option (List Char) := dotsThen ',' cs

/-- After `,`: rule `/,\s*\.{3}\s*\]/g → "]"`. -/
def mEllEnd (cs : List Char) : Option (List Char) := dotsThen ']' cs

/-- After `[`: rule `/\[\s*\.{3}\s*,/g → "["`. -/
def mEllStart (cs : List Char) : Option (List Char) := dotsThen ',' cs

/-- After `,`: rule `/,\s*\]/g → "]"`. -/
def mTrailArr (cs : List Char) : Option (List Char) := expectCh ']' (dropJsWs cs)

/-- After `,`: rule `/,\s*\}/g → "}"`. -/
def mTrailObj (cs : List Char) : Option (List Char) := expectCh rcurly (dropJsWs cs)

/-- After `.`: rule `/\.{3}/g → ""`. -/
def mEllBare : List Char → Option (List Char)
  | a :: b :: r => if a = '.' ∧ b = '.' then some r else none
  | _ => none

/-- After `/`: rule `/\/\/.*$/gm → ""` (a line comment up to, not
including, the line terminator). -/
def mLineComment : List Char → Option (List Char)
  | a :: rest => if a = '/' then some (rest.dropWhile (· ≠ '\n')) else none
  | [] => none

/-- The rest after a lazy `[\s\S]*?\*\/`, if a `*/` exists. -/
def findBlockEnd : List Char → Option (List Char)
  | [] => none
  | '*' :: '/' :: r => some r
  | _ :: r => findBlockEnd r

/-- After `/`: rule `/\/\*[\s\S]*?\*\//g → ""`. -/
def mBlockComment : List Char → Option (List Char)
  | a :: rest => if a = '*' then findBlockEnd rest else none
  | [] => none

/-- `cleanJsonString` on characters: the eleven replaces in source
order. -/
def cleanJsonChars (l0 : List Char) : List Char :=
  let l1 := scanRw '[' mEllArr "[]".data l0.length l0
  let l2 := scanRw '[' mEllStrArr "[\"placeholder\"]".data l1.length l1
  let l3 := scanRw '[' mEllNumArr "[0]".data l2.length l2
  let l4 := scanRw ',' mEllMid ",".data l3.length l3
  let l5 := scanRw ',' mEllEnd "]".data l4.length l4
  let l6 := scanRw '[' mEllStart "[".data l5.length l5
  let l7 := scanRw ',' mTrailArr "]".data l6.length l6
  let l8 := scanRw ',' mTrailObj [rcurly] l7.length l7
  let l9 := scanRw '.' mEllBare [] l8.length l8
  let l10 := scanRw '/' mLineComment [] l9.length l9
  scanRw '/' mBlockComment [] l10.length l10

/-- The `cleanJsonString` repair function (identical in
`generate-visualization` and `auto-visualization-generator.ts`). -/
def cleanJsonString (s : String) : String := String.mk (cleanJsonChars s.data)

/-! ### Repair-trigger predicates

A string on which none of these fires is left unchanged by every repair
rule (proved below); they also witness where the rules can rewrite
*inside* JSON string literals. -/

/-- Three consecutive dots at the head. -/
def tripleDotHead : List Char → Bool
  | '.' :: '.' :: '.' :: _ => true
  | _ => false

/-- Three consecutive dots anywhere. -/
def hasTripleDot : List Char → Bool
  | [] => false
  | c :: cs => tripleDotHead (c :: cs) || hasTripleDot cs

/-- A comma followed by whitespace and the closing character, at the head. -/
def commaCloseHead (close : Char) : List Char → Bool
  | ',' :: r =>
    (match dropJsWs r with
     | c :: _ => c = close
     | [] => false)
  | _ => false

/-- A comma followed by whitespace and the closing character, anywhere. -/
def hasCommaClose (close : Char) : List Char → Bool
  | [] => false
  | c :: cs => commaCloseHead close (c :: cs) || hasCommaClose close cs

/-- No textual pattern targeted by any repair rule occurs in `s` (not
even inside string literals). -/
def noRepairTriggers (s : String) : Bool :=
  !(hasTripleDot s.data) && !(hasCommaClose ']' s.data) && !(hasCommaClose rcurly s.data) &&
  !(hasSubL ['/', '/'] s.data) && !(hasSubL ['/', '*'] s.data)

/-! ### JSON span extraction and the text salvage -/

/-- Lines 109–117 of the visualization server action: the span from the
first left brace to the last right brace, required to be non-degenerate. -/
def extractJsonSpan (text : String) : Option String :=
  let l := text.data
  match idxOfChar lcurly l, lastIdxOfChar rcurly l with
  | some i, some j => if j ≤ i then none else some (String.mk ((l.drop i).take (j + 1 - i)))
  | _, _ => none

/-- Ordered first-match search over alternatives. -/
def firstSomeL : List α → (α → Option β) → Option β
  | [], _ => none
  | x :: r, f =>
    match f x with
    | some y => some y
    | none => firstSomeL r f

/-- Regex `/"type"\s*:\s*"(bar|line|pie|donut)"/i` at one position; the
capture is the original (not case-folded) text. -/
def matchTypeAt (l : List Char) : Option String := do
  let r1 ← ciAfter "\"type\"" l
  let r2 ← expectCh ':' (dropJsWs r1)
  let r3 ← expectCh '"' (dropJsWs r2)
  firstSomeL ["bar", "line", "pie", "donut"] fun cand => do
    let r4 ← ciAfter cand r3
    let _ ← expectCh '"' r4
    pure (String.mk (r3.take cand.data.length))

/-- Regex `/"<name>"\s*:\s*"([^"]+)"/i` at one position. -/
def matchQuotedField (name : String) (l : List Char) : Option String := do
  let r1 ← ciAfter name l
  let r2 ← expectCh ':' (dropJsWs r1)
  let r3 ← expectCh '"' (dropJsWs r2)
  let body := r3.takeWhile (· ≠ '"')
  if body.isEmpty then none
  else
    match r3.dropWhile (· ≠ '"') with
    | '"' :: _ => some (String.mk body)
    | _ => none

/-- Regex `/"<name>"\s*:\s*\[(.*?)\]/s` at one position (case sensitive;
the lazy dot-all capture runs to the first `]`). -/
def matchArrField (name : String) (l : List Char) : Option String := do
  let r1 ← litAfter name l
  let r2 ← expectCh ':' (dropJsWs r1)
  let r3 ← expectCh '[' (dropJsWs r2)
  match r3.dropWhile (· ≠ ']') with
  | ']' :: _ => some (String.mk (r3.takeWhile (· ≠ ']')))
  | _ => none

/-- `NaN` test. -/
def isNaNB : JNum → Bool
  | .nan => true
  | _ => false

/-- The chart-data constructor shared by the salvage and both fallback
generators (an object literal `{type, title, description, data}`). -/
def mkVizConfig (type title description : String) (labels values : List Json)
    (datasetLabel : String) : Json :=
  .obj [("type", .str type), ("title", .str title), ("description", .str description),
        ("data", .obj [("labels", .arr labels), ("values", .arr values),
                       ("datasetLabel", .str datasetLabel)])]

/-- `extractVisualizationFromText` (lines 213–273): regex salvage of a
config from unparseable model text. The `data` argument is accepted and
unused exactly as in the source. -/
def extractVisualizationFromText (text request : String) (data : Json) : Option Json :=
  let tl := text.data
  let type := (scanForL matchTypeAt tl).getD "bar"
  let title := (scanForL (matchQuotedField "\"title\"") tl).getD
    ("Visualization for " ++ takeStr 20 request)
  let description := (scanForL (matchQuotedField "\"description\"") tl).getD
    "Generated visualization"
  let lm := scanForL (matchArrField "\"labels\"") tl
  let vm := scanForL (matchArrField "\"values\"") tl
  let lv : List String × List JNum :=
    match lm, vm with
    | some ls, some vs =>
      let labels := (((((splitCommaS ls).map trimJs).filter
          (fun l => l.data.headD ' ' = '"' && l.data.getLast? = some '"')).map
          (fun l => jsSubstring l 1 (l.data.length - 1))).filter (fun l => l ≠ "")).take 5
      let values := (((splitCommaS vs).map (fun v => parseFloatJs (trimJs v))).filter
          (fun v => !isNaNB v)).take labels.length
      (labels, values)
    | _, _ => ([], [])
  if lv.1.length = 0 ∨ lv.2.length = 0 ∨ lv.1.length ≠ lv.2.length then none
  else some (mkVizConfig type title description (lv.1.map Json.str) (lv.2.map Json.num) "Value")

/-! ### Validation and normalization -/

/-- Property write `j[k] = v` (JavaScript assignment on an object). -/
def jSet (j : Json) (k : String) (v : Json) : Json :=
  match j with
  | .obj fs => .obj (objSet fs k v)
  | _ => j

/-- `config.data.labels` (guarded two-step property read). -/
def chartLabels (j : Json) : Option Json := jsGetPropU (jsGetPropU (some j) "data") "labels"

/-- `config.data.values`. -/
def chartValues (j : Json) : Option Json := jsGetPropU (jsGetPropU (some j) "data") "values"

/-- The normalizer of mismatched label/value arrays (lines 137–142 and
114–120 of the two generators): truncate both to the shorter length when
they differ, otherwise leave both alone. -/
def fixPair (labels values : List Json) : List Json × List Json :=
  if labels.length ≠ values.length then
    let minLength := min labels.length values.length
    (labels.take minLength, values.take minLength)
  else (labels, values)

/-- Well-formed chart data: `data.labels` and `data.values` are arrays
of equal length. -/
def wfChartB (j : Json) : Bool :=
  match chartLabels j, chartValues j with
  | some (.arr ls), some (.arr vs) => ls.length = vs.length
  | _, _ => false

/-- Lines 126–142 of the visualization server action: required-field
truthiness checks, array checks, then the length fix.  Writing the fixed
arrays back through `jSet` also in the already-equal case is the same
mutation the source performs vacuously. -/
def validateFix (config : Json) : Except String Json :=
  if !(jsTruthyU (jsGetPropU (some config) "type")) ||
     !(jsTruthyU (jsGetPropU (some config) "title")) ||
     !(jsTruthyU (jsGetPropU (some config) "data")) ||
     !(jsTruthyU (chartLabels config)) ||
     !(jsTruthyU (chartValues config)) then
    .error "Invalid visualization configuration structure"
  else
    match jsGetPropU (some config) "data", chartLabels config, chartValues config with
    | some dataJ, some (.arr ls), some (.arr vs) =>
      let p := fixPair ls vs
      .ok (jSet config "data" (jSet (jSet dataJ "labels" (.arr p.1)) "values" (.arr p.2)))
    | _, _, _ => .error "Labels and values must be arrays"

/-! ### Field classification and the pre-loop phase -/

/-- Is the value the empty string? (for the `!== ""` guards). -/
def isEmptyStrU : Option Json → Bool
  | some (.str s) => s = ""
  | _ => false

/-- Is the value a string? (`typeof v === "string"`). -/
def isStrU : Option Json → Bool
  | some (.str _) => true
  | _ => false

/-- Numeric fields of the first record: value coerces to a non-`NaN`
number and is not the empty string. -/
def numericFieldsOf (first : Json) (fields : List String) : List String :=
  fields.filter fun f =>
    !(isNaNB (jsNumberU (jsGetPropU (some first) f))) && !(isEmptyStrU (jsGetPropU (some first) f))

/-- Categorical fields of the first record: string-typed and not
numeric. -/
def categoricalFieldsOf (first : Json) (fields : List String) (numeric : List String) :
    List String :=
  fields.filter fun f => isStrU (jsGetPropU (some first) f) && !(numeric.contains f)

/-- Health-related key fragments looked for by the visualization action. -/
def healthFields : List String :=
  ["patient", "diagnosis", "treatment", "medication", "disease", "health", "medical",
   "clinical", "hospital", "doctor", "nurse", "symptom", "indicator"]

/-- `detectHealthData` of the visualization server action (lines
276–306); `Object.keys` throws when the first record is `null`. -/
def detectHealthData (data : Json) : Except Unit Bool :=
  if !(jsTruthy data) then .ok false
  else
    match data with
    | .arr (x :: _) =>
      if typeofObject x then do
        let ks ← jsKeys x
        .ok (ks.any fun k => healthFields.any fun t => hasSubstr (toLowerStr k) (toLowerStr t))
      else .ok false
    | _ => .ok false

/-- `extractVisualizationData` (lines 24–48): both classified branches
return the first 8 records; only its possible `TypeError` is observable. -/
def extractVisualizationData (data : Json) : Except Unit Json :=
  match data with
  | .arr (x :: xs) =>
    if typeofObject x then do
      let fields ← jsKeys x
      let numericFields := numericFieldsOf x fields
      let categoricalFields := categoricalFieldsOf x fields numericFields
      if numericFields.length > 0 && categoricalFields.length > 0 then
        .ok (.arr ((x :: xs).take 8))
      else .ok (.arr ((x :: xs).take 8))
    else .ok data
  | _ => .ok data

/-- The prompt-building phase of the visualization action between the
cache check and the retry loop: `detectHealthData` then
`extractVisualizationData` (the produced strings only feed the prompt;
what is observable is whether either throws). -/
def vizPre (data : Json) : Except Unit Unit := do
  let _ ← detectHealthData data
  let _ ← extractVisualizationData data
  .ok ()

/-! ### The fallback generator of the visualization action -/

/-- The hard-coded default fallback chart (lines 311–320). -/
def defaultFallback : Json :=
  mkVizConfig "bar" "Sample Health Indicators" "Fallback visualization with sample data"
    (["Indicator 1", "Indicator 2", "Indicator 3", "Indicator 4", "Indicator 5"].map Json.str)
    ([12, 19, 3, 5, 2].map (fun n => Json.num (JNum.ofNat n))) "Health Metrics"

/-- Chart kind from keywords of the request (lines 326–333). -/
def chartTypeFromRequest (request : String) : String :=
  let lr := toLowerStr request
  if hasSubstr lr "pie" || hasSubstr lr "distribution" then "pie"
  else if hasSubstr lr "line" || hasSubstr lr "trend" then "line"
  else if hasSubstr lr "donut" then "donut"
  else "bar"

/-- Greedy `\s+` alternatives: the rests after consuming the whitespace
run, longest first; empty when there is no leading whitespace. -/
def wsRests (l : List Char) : List (List Char) :=
  let n := (l.takeWhile isJsWs).length
  (List.range n).map (fun j => l.drop (n - j))

/-- Alternatives of an optional group `(?:a|…)?`: each alternative in
order, then the empty match. -/
def optRests (alts : List String) (l : List Char) : List (List Char) :=
  (alts.filterMap (fun a => ciAfter a l)) ++ [l]

/-- Does one of the title-regex terminators
`(?:\s+by|\s+with|\s+using|\s+from|\s+in|\s+\?|$)` match here? -/
def titleTermB (l : List Char) : Bool :=
  l.isEmpty ||
  (decide (1 ≤ (l.takeWhile isJsWs).length) &&
    (let r := dropJsWs l
     headMatchesCI "by".data r || headMatchesCI "with".data r || headMatchesCI "using".data r ||
     headMatchesCI "from".data r || headMatchesCI "in".data r || r.headD ' ' = '?'))

/-- The lazy capture `(.+?)` before a terminator: grow one non-newline
character at a time and stop at the first length whose rest matches a
terminator. -/
def lazyCapt : List Char → List Char → Option (List Char)
  | _, [] => none
  | acc, c :: cs =>
    if c = '\n' then none
    else
      let acc' := acc ++ [c]
      if titleTermB cs then some acc' else lazyCapt acc' cs

/-- The title-extraction regex of the fallback generator (line 337), at
one position, with the regex's ordered backtracking search. -/
def matchTitleAt (l : List Char) : Option (List Char) :=
  firstSomeL (["show", "create", "generate", "make", "visualize"].filterMap
      (fun v => ciAfter v l)) fun r1 =>
  firstSomeL (wsRests r1) fun r2 =>
  firstSomeL (optRests ["a", "an"] r2) fun r3 =>
  firstSomeL (wsRests r3) fun r4 =>
  firstSomeL (optRests ["chart", "graph", "plot", "visualization"] r4) fun r5 =>
  firstSomeL (wsRests r5) fun r6 =>
  firstSomeL (optRests ["of", "for"] r6) fun r7 =>
  firstSomeL (wsRests r7) fun r8 =>
  lazyCapt [] r8

/-- `request.match(titleRegex)` and its first capture group. -/
def titleFromRequest (request : String) : Option String :=
  (scanForL matchTitleAt request.data).map String.mk

/-- Effectful map over a list (per-element, left to right). -/
def exceptMapM (f : α → Except Unit β) : List α → Except Unit (List β)
  | [] => .ok []
  | x :: r => do
    let y ← f x
    let ys ← exceptMapM f r
    .ok (y :: ys)

/-- All values of one property across the records (`data.map`); throws
on a `null` record. -/
def exceptMapProps (items : List Json) (k : String) : Except Unit (List (Option Json)) :=
  exceptMapM (fun item => jsGetProp item k) items

/-- Left-fold worker for `sumMatching`. -/
def sumMatchingGo (catK numK cat : String) (acc : JNum) : List Json → Except Unit JNum
  | [] => .ok acc
  | item :: rest => do
    let v ← jsGetProp item catK
    if jsToStringU v = cat then do
      let n ← jsGetProp item numK
      let nv := jsNumberU n
      sumMatchingGo catK numK cat (JNum.add acc (if nv.truthy then nv else JNum.dec 0 0)) rest
    else sumMatchingGo catK numK cat acc rest

/-- `data.filter(i => String(i[cat]) === category).reduce((a, i) => a +
(Number(i[num]) || 0), 0)` for the visualization fallback. -/
def sumMatching (items : List Json) (catK numK : String) (cat : String) : Except Unit JNum :=
  sumMatchingGo catK numK cat (JNum.dec 0 0) items

/-- Lines 336–344: the title from the request, trimmed and capitalized,
with the default when the regex does not match. -/
def fallbackTitle (request : String) : String :=
  match titleFromRequest request with
  | some t => capitalizeJs (trimJs t)
  | none => "Data Visualization"

/-- The chart object pushed by the visualization fallback (lines
394–403; an empty extracted title falls back to `num by cat`). -/
def vizFallbackBuild (chartType title selCat selNum : String) (categories : List String)
    (values : List JNum) : Json :=
  mkVizConfig chartType (if title ≠ "" then title else selNum ++ " by " ++ selCat)
    ("Shows the distribution of " ++ selNum ++ " across different " ++ selCat ++ " categories")
    (categories.map Json.str) (values.map Json.num) selNum

/-- The guarded data-derived fallback construction (the `try` of lines
324–409); `rand i` models the `Math.random()` draw for the `i`-th
category when its sum is falsy. -/
def vizFallbackTry (x : Json) (items : List Json) (request : String) (rand : Nat → Nat) :
    Except Unit (Option Json) := do
  let chartType := chartTypeFromRequest request
  let title := fallbackTitle request
  let ks ← jsKeys x
  let categoricalFields := ks.filter fun k =>
    isStrU (jsGetPropU (some x) k) && !(["id", "uuid", "guid"].contains (toLowerStr k))
  let numericFields := ks.filter fun k =>
    !(isNaNB (jsNumberU (jsGetPropU (some x) k))) && !(isEmptyStrU (jsGetPropU (some x) k)) &&
    !(["id", "level"].contains (toLowerStr k))
  if categoricalFields.length > 0 && numericFields.length > 0 then do
    let selCat := ((categoricalFields.find? fun f =>
        hasSubstr (toLowerStr request) (toLowerStr f))).getD (categoricalFields.headD "")
    let selNum := ((numericFields.find? fun f =>
        hasSubstr (toLowerStr request) (toLowerStr f))).getD (numericFields.headD "")
    let rawCats ← exceptMapProps items selCat
    let categories := (((dedupSVZ rawCats).filter jsTruthyU).take 7).map jsToStringU
    if categories.length > 0 then do
      let values ← exceptMapM (fun i => do
        let s ← sumMatching items selCat selNum (categories.getD i "")
        Except.ok (if s.truthy then s else JNum.ofNat (rand i % 100)))
        (List.range categories.length)
      .ok (some (vizFallbackBuild chartType title selCat selNum categories values))
    else .ok none
  else .ok none

/-- `generateFallbackVisualization` (lines 308–413): the data-derived
chart when the guarded construction succeeds, the hard-coded default
otherwise (including when the construction throws). -/
def generateFallbackVisualization (data : Json) (request : String) (rand : Nat → Nat) : Json :=
  match data with
  | .arr (x :: xs) =>
    if typeofObject x then
      match vizFallbackTry x (x :: xs) request rand with
      | .ok (some fb) => fb
      | _ => defaultFallback
    else defaultFallback
  | _ => defaultFallback

/-! ### The retry controller -/

/-- The outcome of one model call: the response text, or the message of
the error the call threw. -/
inductive ModelOutcome where
  | ok (text : String)
  | err (msg : String)

/-- Rate-limit classification of an error message (line 165). -/
def isRateLimitMsg (m : String) : Bool := hasSubstr m "Rate limit reached"

/-- Regex `/Please try again in (\d+\.\d+)s/` at one position; the value
is `parseFloat` of the capture, exactly. -/
def matchRetryWaitAt (l : List Char) : Option JNum := do
  let r ← litAfter "Please try again in " l
  let ids := r.takeWhile isDig
  if ids.isEmpty then none
  else
    match r.dropWhile isDig with
    | '.' :: r2 =>
      let fds := r2.takeWhile isDig
      if fds.isEmpty then none
      else
        match r2.dropWhile isDig with
        | 's' :: _ => some (.dec (Int.ofNat (digitsVal (ids ++ fds))) (-(fds.length : Int)))
        | _ => none
    | _ => none

/-- The suggested wait time parsed from a rate-limit message, if any. -/
def parseRetryWait (m : String) : Option JNum := scanForL matchRetryWaitAt m.data

/-- The shared `catch` block of both retry loops (lines 160–177): the
sleep performed for this failure and the next backoff value. -/
def handleAttemptError (m : String) (delay : Nat) : JNum × Nat :=
  if isRateLimitMsg m then
    match parseRetryWait m with
    | some w => (w.mul1000, delay)
    | none => (JNum.ofNat delay, delay)
  else (JNum.ofNat delay, 2 * delay)

/-- Lines 148–158: when parse or validation fails, try the text salvage;
cache-and-return on success, throw the fixed parse error otherwise. -/
def salvageOr (text request : String) (data : Json) : Except String Json :=
  match extractVisualizationFromText text request data with
  | some c => .ok c
  | none => .error "Failed to parse visualization configuration"

/-- Lines 108–159: processing of one response text — extract the brace
span, repair, parse, validate; salvage on parse or validation failure. -/
def processVizResponse (text request : String) (data : Json) : Except String Json :=
  match extractJsonSpan text with
  | none => .error "Failed to extract valid JSON from LLM response"
  | some span =>
    match parseJson (cleanJsonString span) with
    | some config =>
      match validateFix config with
      | .ok cfg => .ok cfg
      | .error _ => salvageOr text request data
    | none => salvageOr text request data

/-- One attempt: the model call's outcome processed, a thrown model
error passed through. -/
def vizAttemptResult (o : ModelOutcome) (request : String) (data : Json) : Except String Json :=
  match o with
  | .ok t => processVizResponse t request data
  | .err m => .error m

/-- The observable outcome of a retry loop: the result (or last thrown
error), the sleeps performed in order, and how many model calls were
made. -/
structure AttemptsOut where
  result : Except String Json
  sleeps : List JNum
  calls : Nat

/-- The retry loop of the visualization action (lines 64–178):
`maxRetries = 3`, initial delay 1000 ms; every failed attempt sleeps
(per `handleAttemptError`) before the loop continues or exits. -/
def vizAttempts (request : String) (data : Json) (oracle : Nat → ModelOutcome) :
    Nat → Nat → Nat → List JNum → String → AttemptsOut
  | 0, _, calls, sleeps, lastErr =>
    ⟨.error ("Failed after 3 attempts. Last error: " ++ lastErr), sleeps, calls⟩
  | r + 1, delay, calls, sleeps, _ =>
    match vizAttemptResult (oracle calls) request data with
    | .ok cfg => ⟨.ok cfg, sleeps, calls + 1⟩
    | .error m =>
      let p := handleAttemptError m delay
      vizAttempts request data oracle r p.2 (calls + 1) (sleeps ++ [p.1]) m

/-! ### The result cache and the visualization action -/

/-- A cache entry: the stored config and its `Date.now()` timestamp. -/
structure VizCacheEntry where
  config : Json
  timestamp : Int
deriving Repr

/-- The module-level `visualizationCache` map, as an association list
with unique keys. -/
abbrev VizCache := List (String × VizCacheEntry)

/-- `Map.prototype.get`. -/
def cacheFind : VizCache → String → Option VizCacheEntry
  | [], _ => none
  | (k', e) :: r, k => if k' = k then some e else cacheFind r k

/-- `Map.prototype.set` (overwrite). -/
def cacheStore (k : String) (e : VizCacheEntry) (c : VizCache) : VizCache :=
  (k, e) :: c.filter (fun p => p.1 ≠ k)

/-- Removal of a key (used to state that an expired entry acts as a
miss). -/
def cacheErase (k : String) (c : VizCache) : VizCache := c.filter (fun p => p.1 ≠ k)

/-- `CACHE_TTL` of the visualization action: 10 minutes in ms. -/
def CACHE_TTL : Int := 10 * 60 * 1000

/-- Line 14: the cache key `request + "-" + JSON.stringify(data).substring(0, 100)`. -/
def vizCacheKey (request : String) (data : Json) : String :=
  request ++ "-" ++ takeStr 100 (jsonStringify data)

/-- Lines 17–21: the cached config, provided the entry exists and
`now - timestamp < CACHE_TTL`. -/
def vizCacheFresh (c : VizCache) (k : String) (now : Int) : Option Json :=
  match cacheFind c k with
  | some e => if now - e.timestamp < CACHE_TTL then some e.config else none
  | none => none

/-- The whole body inside the outer `try` of `generateVisualization`:
cache lookup, prompt phase, retry loop, store-on-success. -/
structure VizRun where
  result : Except String Json
  cache : VizCache
  sleeps : List JNum
  calls : Nat

/-- `generateVisualization` up to its outer `catch`. -/
def generateVisualizationCore (request : String) (data : Json) (oracle : Nat → ModelOutcome)
    (cache : VizCache) (now : Int) : VizRun :=
  match vizCacheFresh cache (vizCacheKey request data) now with
  | some cfg => ⟨.ok cfg, cache, [], 0⟩
  | none =>
    match vizPre data with
    | .error _ => ⟨.error "TypeError", cache, [], 0⟩
    | .ok _ =>
      match (vizAttempts request data oracle 3 1000 0 [] "").result with
      | .ok cfg =>
        ⟨.ok cfg, cacheStore (vizCacheKey request data) ⟨cfg, now⟩ cache,
         (vizAttempts request data oracle 3 1000 0 [] "").sleeps,
         (vizAttempts request data oracle 3 1000 0 [] "").calls⟩
      | .error e =>
        ⟨.error e, cache, (vizAttempts request data oracle 3 1000 0 [] "").sleeps,
         (vizAttempts request data oracle 3 1000 0 [] "").calls⟩

/-- What a caller of `generateVisualization` observes. -/
structure VizOutcome where
  config : Json
  cache : VizCache
  sleeps : List JNum
  modelCalls : Nat

/-- `generateVisualization` (lines 11–187): the outer `catch` turns any
error into the deterministic fallback chart. -/
def generateVisualization (request : String) (data : Json) (oracle : Nat → ModelOutcome)
    (cache : VizCache) (now : Int) (rand : Nat → Nat) : VizOutcome :=
  match (generateVisualizationCore request data oracle cache now).result with
  | .ok cfg =>
    ⟨cfg, (generateVisualizationCore request data oracle cache now).cache,
     (generateVisualizationCore request data oracle cache now).sleeps,
     (generateVisualizationCore request data oracle cache now).calls⟩
  | .error _ =>
    ⟨generateFallbackVisualization data request rand,
     (generateVisualizationCore request data oracle cache now).cache,
     (generateVisualizationCore request data oracle cache now).sleeps,
     (generateVisualizationCore request data oracle cache now).calls⟩

/-! ### The auto-visualization generator -/

/-- The rest of a `\}\s*\]` completion starting at the head. -/
def takeThroughLastClose : List Char → Option (List Char)
  | [] => none
  | c :: cs =>
    match takeThroughLastClose cs with
    | some t => some (c :: t)
    | none =>
      if c = rcurly then
        match cs.dropWhile isJsWs with
        | d :: _ => if d = ']' then some (rcurly :: (cs.takeWhile isJsWs ++ [']'])) else none
        | [] => none
      else none

/-- Regex `/\[\s*\{[\s\S]*\}\s*\]/m` (line 92): the leftmost `[\s*{`
start whose greedy dot-all body backtracks to the last `}\s*]`; returns
the matched text. -/
def autoJsonMatch : List Char → Option (List Char)
  | [] => none
  | c :: cs =>
    (if c = '[' then
      (match cs.dropWhile isJsWs with
       | d :: r =>
         if d = lcurly then
           (takeThroughLastClose r).map (fun t => '[' :: (cs.takeWhile isJsWs ++ lcurly :: t))
         else none
       | [] => none)
     else none).orElse (fun _ => autoJsonMatch cs)

/-- The filter callback of lines 107–123 on one candidate: `.error` is
the `TypeError` of property access on `null`; `none` means filtered out;
`some` is the (length-fixed) survivor. -/
def autoValidateViz (viz : Json) : Except Unit (Option Json) :=
  match viz with
  | .null => .error ()
  | _ =>
    if !(jsTruthyU (jsGetPropU (some viz) "type")) || !(jsTruthyU (jsGetPropU (some viz) "title")) ||
       !(jsTruthyU (jsGetPropU (some viz) "data")) then
      .ok none
    else
      match jsGetPropU (some viz) "data", chartLabels viz, chartValues viz with
      | some dataJ, some (.arr ls), some (.arr vs) =>
        let p := fixPair ls vs
        .ok (some (jSet viz "data" (jSet (jSet dataJ "labels" (.arr p.1)) "values" (.arr p.2))))
      | _, _, _ => .ok none

/-- `visualizations.filter(...)` with the validating, mutating callback. -/
def autoFilterViz : List Json → Except Unit (List Json)
  | [] => .ok []
  | viz :: rest => do
    let kept ← autoValidateViz viz
    let tail ← autoFilterViz rest
    match kept with
    | some v => .ok (v :: tail)
    | none => .ok tail

/-- Left-fold worker for `sumMatchingStrict` (lines 216–220). -/
def sumMatchingStrictGo (catK numK : String) (cat : Option Json) (acc : JNum) :
    List Json → Except Unit JNum
  | [] => .ok acc
  | item :: rest => do
    let v ← jsGetProp item catK
    if jsStrictEqU v cat then do
      let n ← jsGetProp item numK
      let nv := jsNumberU n
      sumMatchingStrictGo catK numK cat (JNum.add acc (if nv.truthy then nv else JNum.dec 0 0)) rest
    else sumMatchingStrictGo catK numK cat acc rest

/-- `item[catField] === category` strict comparison and the summation of
`Number(item[numField]) || 0` over matches (lines 216–220). -/
def sumMatchingStrict (items : List Json) (catK numK : String) (cat : Option Json) :
    Except Unit JNum :=
  sumMatchingStrictGo catK numK cat (JNum.dec 0 0) items

/-- Regex `/^\d{4}(-\d{2})?(-\d{2})?$/` (date-like category test). -/
def datePatternB (s : String) : Bool :=
  let l := s.data
  (l.length = 4 || l.length = 7 || l.length = 10) &&
  (l.take 4).all isDig &&
  (decide (l.length < 5) || (l.getD 4 ' ' = '-' && ((l.drop 5).take 2).all isDig)) &&
  (decide (l.length < 8) || (l.getD 7 ' ' = '-' && ((l.drop 8).all isDig)))

/-- The chart-kind heuristic of the auto fallback (lines 222–231). -/
def autoChartType (categories : List (Option Json)) (i : Nat) : String :=
  if categories.length ≤ 5 then (if i % 2 = 0 then "pie" else "donut")
  else if categories.any (fun c => datePatternB (jsToStringU c)) then "line"
  else "bar"

/-- The chart object pushed by the auto fallback (lines 233–242). -/
def autoFallbackBuild (chartType catField numField : String) (categories : List (Option Json))
    (values : List JNum) : Json :=
  mkVizConfig chartType (capitalizeJs numField ++ " by " ++ catField)
    ("Distribution of " ++ numField ++ " across different " ++ catField ++ " categories")
    (categories.map (fun c => Json.str (jsToStringU c))) (values.map Json.num) numField

/-- One iteration of the auto fallback loop (lines 205–243). -/
def autoFallbackItem (items : List Json) (catFields numFields : List String) (i : Nat) :
    Except Unit (Option Json) := do
  let catField := catFields.getD (i % catFields.length) ""
  let numField := numFields.getD ((i / catFields.length) % numFields.length) ""
  let rawCats ← exceptMapProps items catField
  let categories := ((dedupSVZ rawCats).filter jsTruthyU).take 8
  if categories.length = 0 then .ok none
  else do
    let values ← exceptMapM (fun c => sumMatchingStrict items catField numField c) categories
    .ok (some (autoFallbackBuild (autoChartType categories i) catField numField categories values))

/-- The record list of a data argument typed `any[]` (callers always
pass an array). -/
def jsonItemsOf : Json → List Json
  | .arr xs => xs
  | _ => []

/-- The accumulation loop of `generateFallbackVisualizations` over the
iteration indices (`continue` on an empty category set). -/
def autoFallbackGo (items : List Json) (catFields numFields : List String) (acc : List Json) :
    List Nat → Except Unit (List Json)
  | [] => .ok acc
  | i :: rest => do
    let item ← autoFallbackItem items catFields numFields i
    match item with
    | some v => autoFallbackGo items catFields numFields (acc ++ [v]) rest
    | none => autoFallbackGo items catFields numFields acc rest

/-- `generateFallbackVisualizations` (lines 193–250): up to
`min(5, |cat| * |num|)` charts; any throw empties the whole result. -/
def generateFallbackVisualizations (data : Json) (categoricalFields numericFields : List String) :
    List Json :=
  match autoFallbackGo (jsonItemsOf data) categoricalFields numericFields []
      (List.range (min 5 (categoricalFields.length * numericFields.length))) with
  | .ok l => l
  | .error _ => []

/-- Lines 91–140: extract the JSON array, repair, parse, filter-validate,
cap at 3; the in-attempt fallback (uncached) when no candidate survives.
The boolean records whether the result is to be cached (survivors) or
not (fallback). -/
def processAutoResponse (text : String) (data : Json) (limCat limNum : List String) :
    Except String (Bool × List Json) :=
  match autoJsonMatch text.data with
  | none => .error "Failed to extract JSON array from response"
  | some matched =>
    match parseJson (cleanJsonString (String.mk matched)) with
    | some (.arr items) =>
      (match autoFilterViz items with
       | .ok kept =>
         if (kept.take 3).length = 0 then
           .ok (false, generateFallbackVisualizations data limCat limNum)
         else .ok (true, kept.take 3)
       | .error _ => .error "Failed to parse visualizations")
    | some _ => .error "Failed to parse visualizations"
    | none => .error "Failed to parse visualizations"

/-- One auto attempt: the model outcome processed, thrown model errors
passed through. -/
def autoAttemptResult (o : ModelOutcome) (data : Json) (limCat limNum : List String) :
    Except String (Bool × List Json) :=
  match o with
  | .ok t => processAutoResponse t data limCat limNum
  | .err m => .error m

/-- The observable outcome of the auto retry loop. -/
structure AutoAttemptsOut where
  stored : Bool
  visualizations : List Json
  sleeps : List JNum
  calls : Nat

/-- The auto retry loop (lines 49–162): identical backoff; on
exhaustion the loop returns the deterministic fallback set (uncached)
rather than throwing. -/
def autoAttempts (data : Json) (limCat limNum : List String) (oracle : Nat → ModelOutcome) :
    Nat → Nat → Nat → List JNum → AutoAttemptsOut
  | 0, _, calls, sleeps => ⟨false, generateFallbackVisualizations data limCat limNum, sleeps, calls⟩
  | r + 1, delay, calls, sleeps =>
    match autoAttemptResult (oracle calls) data limCat limNum with
    | .ok (st, vs) => ⟨st, vs, sleeps, calls + 1⟩
    | .error m =>
      let p := handleAttemptError m delay
      autoAttempts data limCat limNum oracle r p.2 (calls + 1) (sleeps ++ [p.1])

/-- An entry of the module-level `autoVisualizationCache`. -/
structure AutoCacheEntry where
  visualizations : List Json
  timestamp : Int

/-- The auto cache map. -/
abbrev AutoCache := List (String × AutoCacheEntry)

/-- `Map.prototype.get` on the auto cache. -/
def autoCacheFind : AutoCache → String → Option AutoCacheEntry
  | [], _ => none
  | (k', e) :: r, k => if k' = k then some e else autoCacheFind r k

/-- `Map.prototype.set` on the auto cache. -/
def autoCacheStore (k : String) (e : AutoCacheEntry) (c : AutoCache) : AutoCache :=
  (k, e) :: c.filter (fun p => p.1 ≠ k)

/-- `CACHE_TTL` of the auto generator: 30 minutes in ms. -/
def CACHE_TTL_AUTO : Int := 30 * 60 * 1000

/-- Line 15: the auto cache key `JSON.stringify(data).substring(0, 200)`. -/
def autoCacheKey (data : Json) : String := takeStr 200 (jsonStringify data)

/-- Lines 18–22: the cached list while fresh. -/
def autoCacheFresh (c : AutoCache) (k : String) (now : Int) : Option (List Json) :=
  match autoCacheFind c k with
  | some e => if now - e.timestamp < CACHE_TTL_AUTO then some e.visualizations else none
  | none => none

/-- The body inside the outer `try` of `generateAutoVisualizations`. -/
structure AutoRun where
  result : Except String (List Json)
  cache : AutoCache
  sleeps : List JNum
  calls : Nat

/-- The categorical fields of the first record, capped at 3 (line 47). -/
def autoLimCat (x : Json) : List String :=
  match jsKeys x with
  | .ok fields => (categoricalFieldsOf x fields (numericFieldsOf x fields)).take 3
  | .error _ => []

/-- The numeric fields of the first record, capped at 3 (line 46). -/
def autoLimNum (x : Json) : List String :=
  match jsKeys x with
  | .ok fields => (numericFieldsOf x fields).take 3
  | .error _ => []

/-- The auto retry loop at its call site, with the limited field lists
of the first record. -/
def autoAttemptsAt (x : Json) (xs : List Json) (oracle : Nat → ModelOutcome) : AutoAttemptsOut :=
  autoAttempts (.arr (x :: xs)) (autoLimCat x) (autoLimNum x) oracle 3 1000 0 []

/-- `generateAutoVisualizations` up to its outer `catch`: cache lookup,
array/field guards (lines 24–43), retry loop, store-on-validated. -/
def generateAutoVisualizationsCore (data : Json) (oracle : Nat → ModelOutcome)
    (cache : AutoCache) (now : Int) : AutoRun :=
  match autoCacheFresh cache (autoCacheKey data) now with
  | some vs => ⟨.ok vs, cache, [], 0⟩
  | none =>
    match data with
    | .arr (x :: xs) =>
      (match jsKeys x with
       | .error _ => ⟨.error "TypeError", cache, [], 0⟩
       | .ok fields =>
         if (numericFieldsOf x fields).length = 0 ||
            (categoricalFieldsOf x fields (numericFieldsOf x fields)).length = 0 then
           ⟨.ok [], cache, [], 0⟩
         else
           if (autoAttemptsAt x xs oracle).stored then
             ⟨.ok (autoAttemptsAt x xs oracle).visualizations,
              autoCacheStore (autoCacheKey data)
                ⟨(autoAttemptsAt x xs oracle).visualizations, now⟩ cache,
              (autoAttemptsAt x xs oracle).sleeps, (autoAttemptsAt x xs oracle).calls⟩
           else
             ⟨.ok (autoAttemptsAt x xs oracle).visualizations, cache,
              (autoAttemptsAt x xs oracle).sleeps, (autoAttemptsAt x xs oracle).calls⟩)
    | _ => ⟨.ok [], cache, [], 0⟩

/-- What a caller of `generateAutoVisualizations` observes. -/
structure AutoOutcome where
  visualizations : List Json
  cache : AutoCache
  sleeps : List JNum
  modelCalls : Nat

/-- `generateAutoVisualizations` (lines 12–167): the outer `catch`
turns any error into the empty sequence. -/
def generateAutoVisualizations (data : Json) (oracle : Nat → ModelOutcome)
    (cache : AutoCache) (now : Int) : AutoOutcome :=
  match (generateAutoVisualizationsCore data oracle cache now).result with
  | .ok vs =>
    ⟨vs, (generateAutoVisualizationsCore data oracle cache now).cache,
     (generateAutoVisualizationsCore data oracle cache now).sleeps,
     (generateAutoVisualizationsCore data oracle cache now).calls⟩
  | .error _ =>
    ⟨[], (generateAutoVisualizationsCore data oracle cache now).cache,
     (generateAutoVisualizationsCore data oracle cache now).sleeps,
     (generateAutoVisualizationsCore data oracle cache now).calls⟩

/-! ### `analyzeData` -/

/-- DHIS2-typical field names looked for by the analyzer's health-data
detector. -/
def dhis2Fields : List String :=
  ["id", "name", "description", "numerator", "denominator", "dataElement", "period",
   "orgUnit", "categoryOptionCombo", "value", "storedBy", "created", "lastUpdated"]

/-- `detectHealthData` of the analyzer: at least two DHIS2 field names
among the first record's keys, or a DHIS2 response object; throws when
the first record is `null`. -/
def detectHealthDataDhis (data : Json) : Except Unit Bool :=
  if !(jsTruthy data) then .ok false
  else
    match data with
    | .arr (x :: _) =>
      if typeofObject x then do
        let ks ← jsKeys x
        .ok (decide (2 ≤ (dhis2Fields.filter (fun f => ks.contains f)).length))
      else .ok false
    | .obj fs =>
      .ok ((objGet fs "dataValues").isSome || (objGet fs "indicators").isSome ||
           (objGet fs "dataElements").isSome)
    | _ => .ok false

/-- The apology returned by `analyzeData`'s `catch` (lines 168–172). -/
def analysisFailureMessage : String :=
  "Failed to analyze the data. The dataset might be too large. Try uploading a smaller file or a sample of your data."

/-- `analyzeData` up to its `catch`: of the prompt-building steps only
`detectHealthData` can throw (`truncateData` walks the structure without
`null` property access and `getDataStatistics` has its own internal
`catch`); then the model's text, trimmed. -/
def analyzeDataCore (data : Json) (o : ModelOutcome) : Except String String :=
  match detectHealthDataDhis data with
  | .error _ => .error "TypeError"
  | .ok _ =>
    match o with
    | .ok t => .ok (trimJs t)
    | .err m => .error m

/-- `analyzeData`: the `catch` turns any error into the apology. -/
def analyzeData (data : Json) (o : ModelOutcome) : String :=
  match analyzeDataCore data o with
  | .ok s => s
  | .error _ => analysisFailureMessage

/-! ### Concrete fixtures and the empty-result guard -/

/-- The auto generator's pre-model guard (lines 24–43): data not a
non-empty array, a throwing first record, or a missing numeric or
categorical field. -/
def autoGuardFails (data : Json) : Bool :=
  match data with
  | .arr (x :: _) =>
    (match jsKeys x with
     | .error _ => true
     | .ok fields =>
       decide ((numericFieldsOf x fields).length = 0) ||
       decide ((categoricalFieldsOf x fields (numericFieldsOf x fields)).length = 0))
  | _ => true

/-- A syntactically valid model response whose chart data has empty
`labels` and `values` arrays. -/
def emptyArraysResponse : String :=
  "\x7b\"type\":\"bar\",\"title\":\"T\",\"description\":\"D\",\"data\":\x7b\"labels\":[],\"values\":[]\x7d\x7d"

/-- A syntactically valid model response with a two-point chart. -/
def okChartResponse : String :=
  "\x7b\"type\":\"bar\",\"title\":\"T\",\"description\":\"D\",\"data\":\x7b\"labels\":[\"a\",\"b\"],\"values\":[1,2]\x7d\x7d"

/-- Valid JSON whose string value contains a `//`: the line-comment
repair truncates it into unparseable text. -/
def slashUrlJson : String := "\x7b\"a\":\"http://x\"\x7d"

/-- Valid JSON (an array holding one string) whose block-comment-shaped
content exposes a trailing comma only after the first repair pass. -/
def commentTrapJson : String := "[\"a,/*x*/]\"]"

/-- A trigger-free JSON object span. -/
def plainSpanJson : String := "\x7b\"a\": [1, 2]\x7d"

/-! ### Lemmas: the repair rules are the identity on trigger-free text -/

/-- Rebuilding a string from its characters. -/
theorem stringMk_data : ∀ s : String, String.mk s.data = s
  | ⟨_⟩ => rfl

/-- A triple dot in the tail is a triple dot in the list. -/
theorem hasTripleDot_cons (c : Char) (l : List Char) (h : hasTripleDot l = true) :
    hasTripleDot (c :: l) = true := by
  cases l with
  | nil => simp [hasTripleDot] at h
  | cons d r => simp [hasTripleDot] at h ⊢; tauto

/-- A triple dot in a suffix is a triple dot in the whole list. -/
theorem hasTripleDot_append (p l : List Char) (h : hasTripleDot l = true) :
    hasTripleDot (p ++ l) = true := by
  induction p with
  | nil => simpa using h
  | cons c r ih => exact hasTripleDot_cons c _ ih

/-- No triple dot in a list means none in its tail. -/
theorem hasTripleDot_closure (c : Char) (cs : List Char) (h : hasTripleDot (c :: cs) = false) :
    hasTripleDot cs = false := by
  simp [hasTripleDot] at h; exact h.2

/-- No comma-close in a list means none in its tail. -/
theorem hasCommaClose_closure (close c : Char) (cs : List Char)
    (h : hasCommaClose close (c :: cs) = false) : hasCommaClose close cs = false := by
  simp [hasCommaClose] at h; exact h.2

/-- No substring occurrence in a list means none in its tail. -/
theorem hasSubL_closure (pat : List Char) (c : Char) (cs : List Char)
    (h : hasSubL pat (c :: cs) = false) : hasSubL pat cs = false := by
  simp [hasSubL] at h; exact h.2

/-- `dropWhile` keeps a suffix. -/
theorem dropJsWs_suffix (l : List Char) : ∃ p, l = p ++ dropJsWs l :=
  ⟨l.takeWhile isJsWs, (List.takeWhile_append_dropWhile ..).symm⟩

/-- Successful `expectCh` exposes the literal. -/
theorem expectCh_eq {c : Char} {l r : List Char} (h : expectCh c l = some r) : l = c :: r := by
  cases l with
  | nil => simp [expectCh] at h
  | cons x t =>
    by_cases hx : x = c
    · subst hx; simp [expectCh] at h; rw [h]
    · simp [expectCh, hx] at h

/-- Successful `expectDots3` exposes three dots. -/
theorem expectDots3_eq {l r : List Char} (h : expectDots3 l = some r) :
    l = '.' :: '.' :: '.' :: r := by
  rcases l with _ | ⟨a, _ | ⟨b, _ | ⟨c, t⟩⟩⟩ <;> simp [expectDots3] at h
  obtain ⟨⟨ha, hb, hc⟩, ht⟩ := h
  rw [ha, hb, hc, ht]

/-- Successful `takeQuoted` returns a suffix. -/
theorem takeQuoted_suffix {l r : List Char} (h : takeQuoted l = some r) : ∃ p, l = p ++ r := by
  cases l with
  | nil => simp [takeQuoted] at h
  | cons x t =>
    by_cases hx : x = '"'
    · subst hx
      simp only [takeQuoted, if_pos rfl] at h
      rcases ht : t.dropWhile (· ≠ '"') with _ | ⟨d, rest⟩ <;> rw [ht] at h
      · simp at h
      · by_cases hd : d = '"'
        · subst hd
          simp at h
          subst h
          have hw := List.takeWhile_append_dropWhile (p := (· ≠ '"')) (l := t)
          set tw := t.takeWhile (· ≠ '"') with htw
          have key : t = tw ++ '"' :: rest := by
            conv_lhs => rw [← hw, ht]
          refine ⟨'"' :: (tw ++ ['"']), ?_⟩
          rw [key]
          simp
        · simp [hd] at h
    · simp [takeQuoted, hx] at h

/-- Successful `takeDigs1` returns a suffix. -/
theorem takeDigs1_suffix {l r : List Char} (h : takeDigs1 l = some r) : ∃ p, l = p ++ r := by
  simp only [takeDigs1] at h
  by_cases he : (l.takeWhile isDig).isEmpty <;> simp [he] at h
  exact ⟨l.takeWhile isDig, by rw [← h, List.takeWhile_append_dropWhile]⟩

/-- A successful `dotsThen` means a triple dot occurs in the input. -/
theorem dotsThen_dots {c : Char} {l r : List Char} (h : dotsThen c l = some r) :
    hasTripleDot l = true := by
  simp only [dotsThen, Option.bind_eq_bind, Option.bind_eq_some] at h
  obtain ⟨a, ha, _⟩ := h
  have h3 := expectDots3_eq ha
  obtain ⟨p, hp⟩ := dropJsWs_suffix l
  rw [hp, h3]
  exact hasTripleDot_append p _ (by simp [hasTripleDot, tripleDotHead])

/-- `mEllStrArr` fires only where a triple dot occurs. -/
theorem mEllStrArr_dots {l r : List Char} (h : mEllStrArr l = some r) :
    hasTripleDot l = true := by
  simp only [mEllStrArr, Option.bind_eq_bind, Option.bind_eq_some] at h
  obtain ⟨a, ha, b, hb, hd⟩ := h
  have s1 : hasTripleDot (',' :: b) = true := hasTripleDot_cons _ _ (dotsThen_dots hd)
  obtain ⟨p3, hp3⟩ := dropJsWs_suffix a
  have s2 : hasTripleDot a = true := by
    rw [hp3, expectCh_eq hb]; exact hasTripleDot_append _ _ s1
  obtain ⟨p2, hp2⟩ := takeQuoted_suffix ha
  have s3 : hasTripleDot (dropJsWs l) = true := by
    rw [hp2]; exact hasTripleDot_append _ _ s2
  obtain ⟨p1, hp1⟩ := dropJsWs_suffix l
  rw [hp1]; exact hasTripleDot_append _ _ s3

/-- `mEllNumArr` fires only where a triple dot occurs. -/
theorem mEllNumArr_dots {l r : List Char} (h : mEllNumArr l = some r) :
    hasTripleDot l = true := by
  simp only [mEllNumArr, Option.bind_eq_bind, Option.bind_eq_some] at h
  obtain ⟨a, ha, b, hb, hd⟩ := h
  have s1 : hasTripleDot (',' :: b) = true := hasTripleDot_cons _ _ (dotsThen_dots hd)
  obtain ⟨p3, hp3⟩ := dropJsWs_suffix a
  have s2 : hasTripleDot a = true := by
    rw [hp3, expectCh_eq hb]; exact hasTripleDot_append _ _ s1
  obtain ⟨p2, hp2⟩ := takeDigs1_suffix ha
  have s3 : hasTripleDot (dropJsWs l) = true := by
    rw [hp2]; exact hasTripleDot_append _ _ s2
  obtain ⟨p1, hp1⟩ := dropJsWs_suffix l
  rw [hp1]; exact hasTripleDot_append _ _ s3

/-- The generic global-replace scan is the identity when an invariant
excluding every match holds. -/
theorem scanRw_id (start : Char) (m : List Char → Option (List Char)) (rep : List Char)
    (P : List Char → Bool)
    (hcl : ∀ c cs, P (c :: cs) = false → P cs = false)
    (hex : ∀ cs, P (start :: cs) = false → m cs = none) :
    ∀ fuel l, P l = false → scanRw start m rep fuel l = l := by
  intro fuel
  induction fuel with
  | zero => intro l _; rfl
  | succ n ih =>
    intro l hP
    cases l with
    | nil => rfl
    | cons c cs =>
      by_cases hc : c = start
      · subst hc
        simp [scanRw, hex cs hP, ih cs (hcl _ _ hP)]
      · simp [scanRw, hc, ih cs (hcl _ _ hP)]

/-- `mEllArr` cannot fire without a triple dot. -/
theorem mEllArr_none (cs : List Char) (h : hasTripleDot ('[' :: cs) = false) :
    mEllArr cs = none := by
  cases hmc : mEllArr cs with
  | none => rfl
  | some r =>
    rw [hasTripleDot_cons '[' cs (dotsThen_dots hmc)] at h
    exact absurd h (by decide)

/-- `mEllStrArr` cannot fire without a triple dot. -/
theorem mEllStrArr_none (cs : List Char) (h : hasTripleDot ('[' :: cs) = false) :
    mEllStrArr cs = none := by
  cases hmc : mEllStrArr cs with
  | none => rfl
  | some r =>
    rw [hasTripleDot_cons '[' cs (mEllStrArr_dots hmc)] at h
    exact absurd h (by decide)

/-- `mEllNumArr` cannot fire without a triple dot. -/
theorem mEllNumArr_none (cs : List Char) (h : hasTripleDot ('[' :: cs) = false) :
    mEllNumArr cs = none := by
  cases hmc : mEllNumArr cs with
  | none => rfl
  | some r =>
    rw [hasTripleDot_cons '[' cs (mEllNumArr_dots hmc)] at h
    exact absurd h (by decide)

/-- `mEllMid` cannot fire without a triple dot. -/
theorem mEllMid_none (cs : List Char) (h : hasTripleDot (',' :: cs) = false) :
    mEllMid cs = none := by
  cases hmc : mEllMid cs with
  | none => rfl
  | some r =>
    rw [hasTripleDot_cons ',' cs (dotsThen_dots hmc)] at h
    exact absurd h (by decide)

/-- `mEllEnd` cannot fire without a triple dot. -/
theorem mEllEnd_none (cs : List Char) (h : hasTripleDot (',' :: cs) = false) :
    mEllEnd cs = none := by
  cases hmc : mEllEnd cs with
  | none => rfl
  | some r =>
    rw [hasTripleDot_cons ',' cs (dotsThen_dots hmc)] at h
    exact absurd h (by decide)

/-- `mEllStart` cannot fire without a triple dot. -/
theorem mEllStart_none (cs : List Char) (h : hasTripleDot ('[' :: cs) = false) :
    mEllStart cs = none := by
  cases hmc : mEllStart cs with
  | none => rfl
  | some r =>
    rw [hasTripleDot_cons '[' cs (dotsThen_dots hmc)] at h
    exact absurd h (by decide)

/-- `mEllBare` cannot fire without a triple dot. -/
theorem mEllBare_none (cs : List Char) (h : hasTripleDot ('.' :: cs) = false) :
    mEllBare cs = none := by
  cases hmc : mEllBare cs with
  | none => rfl
  | some r =>
    rcases cs with _ | ⟨a, _ | ⟨b, t⟩⟩ <;> simp [mEllBare] at hmc
    obtain ⟨⟨ha, hb⟩, _⟩ := hmc
    subst ha; subst hb
    simp [hasTripleDot, tripleDotHead] at h

/-- `mTrailArr` cannot fire without a comma-close. -/
theorem mTrailArr_none (cs : List Char) (h : hasCommaClose ']' (',' :: cs) = false) :
    mTrailArr cs = none := by
  cases hmc : mTrailArr cs with
  | none => rfl
  | some r =>
    have ht := expectCh_eq hmc
    simp [hasCommaClose, commaCloseHead, ht] at h

/-- `mTrailObj` cannot fire without a comma-close. -/
theorem mTrailObj_none (cs : List Char) (h : hasCommaClose rcurly (',' :: cs) = false) :
    mTrailObj cs = none := by
  cases hmc : mTrailObj cs with
  | none => rfl
  | some r =>
    have ht := expectCh_eq hmc
    simp [hasCommaClose, commaCloseHead, ht] at h

/-- `mLineComment` cannot fire without a `//`. -/
theorem mLineComment_none (cs : List Char) (h : hasSubL ['/', '/'] ('/' :: cs) = false) :
    mLineComment cs = none := by
  cases cs with
  | nil => rfl
  | cons a rest =>
    by_cases ha : a = '/'
    · subst ha; simp [hasSubL, headMatches] at h
    · simp [mLineComment, ha]

/-- `mBlockComment` cannot fire without a `/*`. -/
theorem mBlockComment_none (cs : List Char) (h : hasSubL ['/', '*'] ('/' :: cs) = false) :
    mBlockComment cs = none := by
  cases cs with
  | nil => rfl
  | cons a rest =>
    by_cases ha : a = '*'
    · subst ha; simp [hasSubL, headMatches] at h
    · simp [mBlockComment, ha]

/-- On a string with none of the targeted textual patterns, the whole
repair chain is the identity. -/
theorem cleanJsonChars_id (l : List Char)
    (h1 : hasTripleDot l = false) (h2 : hasCommaClose ']' l = false)
    (h3 : hasCommaClose rcurly l = false) (h4 : hasSubL ['/', '/'] l = false)
    (h5 : hasSubL ['/', '*'] l = false) : cleanJsonChars l = l := by
  have e1 := scanRw_id '[' mEllArr "[]".data hasTripleDot
    (hasTripleDot_closure) mEllArr_none l.length l h1
  have e2 := scanRw_id '[' mEllStrArr "[\"placeholder\"]".data hasTripleDot
    (hasTripleDot_closure) mEllStrArr_none l.length l h1
  have e3 := scanRw_id '[' mEllNumArr "[0]".data hasTripleDot
    (hasTripleDot_closure) mEllNumArr_none l.length l h1
  have e4 := scanRw_id ',' mEllMid ",".data hasTripleDot
    (hasTripleDot_closure) mEllMid_none l.length l h1
  have e5 := scanRw_id ',' mEllEnd "]".data hasTripleDot
    (hasTripleDot_closure) mEllEnd_none l.length l h1
  have e6 := scanRw_id '[' mEllStart "[".data hasTripleDot
    (hasTripleDot_closure) mEllStart_none l.length l h1
  have e7 := scanRw_id ',' mTrailArr "]".data (hasCommaClose ']')
    (hasCommaClose_closure ']') mTrailArr_none l.length l h2
  have e8 := scanRw_id ',' mTrailObj [rcurly] (hasCommaClose rcurly)
    (hasCommaClose_closure rcurly) mTrailObj_none l.length l h3
  have e9 := scanRw_id '.' mEllBare [] hasTripleDot
    (hasTripleDot_closure) mEllBare_none l.length l h1
  have e10 := scanRw_id '/' mLineComment [] (hasSubL ['/', '/'])
    (hasSubL_closure ['/', '/']) mLineComment_none l.length l h4
  have e11 := scanRw_id '/' mBlockComment [] (hasSubL ['/', '*'])
    (hasSubL_closure ['/', '*']) mBlockComment_none l.length l h5
  simp only [cleanJsonChars, e1, e2, e3, e4, e5, e6, e7, e8, e9, e10, e11]

/-- `cleanJsonString` is the identity on trigger-free strings. -/
theorem cleanJsonString_id (s : String) (h : noRepairTriggers s = true) :
    cleanJsonString s = s := by
  simp only [noRepairTriggers, Bool.and_eq_true, Bool.not_eq_true'] at h
  obtain ⟨⟨⟨⟨h1, h2⟩, h3⟩, h4⟩, h5⟩ := h
  rw [cleanJsonString, cleanJsonChars_id s.data h1 h2 h3 h4 h5, stringMk_data]

/-! ### Lemmas: every produced chart has labels and values of equal length -/

/-- Reading back the key just written. -/
theorem objGet_objSet_self : ∀ (fs : List (String × Json)) (k : String) (v : Json),
    objGet (objSet fs k v) k = some v := by
  intro fs k v
  induction fs with
  | nil => simp [objSet, objGet]
  | cons f r ih =>
    by_cases hk : f.1 = k
    · simp [objSet, objGet, hk]
    · simp [objSet, objGet, hk, ih]

/-- Writing one key leaves the others unchanged. -/
theorem objGet_objSet_ne : ∀ (fs : List (String × Json)) (k k' : String) (v : Json),
    k ≠ k' → objGet (objSet fs k v) k' = objGet fs k' := by
  intro fs k k' v hne
  induction fs with
  | nil => simp [objSet, objGet, hne]
  | cons f r ih =>
    by_cases hk : f.1 = k
    · simp [objSet, objGet, hk, hne]
    · simp [objSet, objGet, hk, ih]

/-- A non-index property read succeeds only on an object. -/
theorem obj_of_getPropU {d v : Json} {k : String} (hk : parseIdx k = none)
    (h : jsGetPropU (some d) k = some v) : ∃ fs, d = .obj fs := by
  cases d with
  | obj fs => exact ⟨fs, rfl⟩
  | null => simp [jsGetPropU, jsGetProp] at h
  | arr xs => simp [jsGetPropU, jsGetProp, hk] at h
  | str s => simp [jsGetPropU, jsGetProp, hk] at h
  | bool b => simp [jsGetPropU, jsGetProp] at h
  | num n => simp [jsGetPropU, jsGetProp] at h

/-- The normalizer in closed form: both sides are truncated to the
common minimum, preserving prefixes. -/
theorem fixPair_eq (labels values : List Json) :
    fixPair labels values =
      (labels.take (min labels.length values.length),
       values.take (min labels.length values.length)) := by
  unfold fixPair
  by_cases h : labels.length = values.length
  · rw [if_neg (not_not_intro h)]
    have h1 : min labels.length values.length = labels.length := by omega
    rw [h1, List.take_length, h, List.take_length]
  · rw [if_pos h]

/-- A constructed chart object with equally long arrays is well formed. -/
theorem wfChartB_mkVizConfig (t ti d dl : String) (ls vs : List Json)
    (h : ls.length = vs.length) : wfChartB (mkVizConfig t ti d ls vs dl) = true := by
  have e : wfChartB (mkVizConfig t ti d ls vs dl) = decide (ls.length = vs.length) := rfl
  rw [e, decide_eq_true_eq]
  exact h

/-- Property read on an object, unfolded. -/
theorem jsGetPropU_obj (fs : List (String × Json)) (k : String) :
    jsGetPropU (some (.obj fs)) k = objGet fs k := rfl

/-- Labels after the double write of the normalizer. -/
theorem chartLabels_write (cfs dfs : List (String × Json)) (A B : Json) :
    chartLabels (jSet (Json.obj cfs) "data"
      (jSet (jSet (Json.obj dfs) "labels" A) "values" B)) = some A := by
  simp only [jSet, chartLabels, jsGetPropU_obj, objGet_objSet_self]
  rw [objGet_objSet_ne _ _ _ _ (by decide), objGet_objSet_self]

/-- Values after the double write of the normalizer. -/
theorem chartValues_write (cfs dfs : List (String × Json)) (A B : Json) :
    chartValues (jSet (Json.obj cfs) "data"
      (jSet (jSet (Json.obj dfs) "labels" A) "values" B)) = some B := by
  simp only [jSet, chartValues, jsGetPropU_obj, objGet_objSet_self]

/-- The normalizing write-back always leaves equal-length arrays. -/
theorem wf_of_fixWrite {config dataJ : Json} {ls vs : List Json}
    (hd : jsGetPropU (some config) "data" = some dataJ)
    (hl : chartLabels config = some (.arr ls))
    (hv : chartValues config = some (.arr vs)) :
    wfChartB (jSet config "data"
      (jSet (jSet dataJ "labels" (.arr (fixPair ls vs).1))
        "values" (.arr (fixPair ls vs).2))) = true := by
  obtain ⟨cfs, rfl⟩ := obj_of_getPropU (by rfl) hd
  have hdl : jsGetPropU (some dataJ) "labels" = some (.arr ls) := by
    rw [chartLabels, hd] at hl; exact hl
  obtain ⟨dfs, rfl⟩ := obj_of_getPropU (by rfl) hdl
  simp only [wfChartB, chartLabels_write, chartValues_write]
  rw [fixPair_eq]
  simp only [List.length_take, decide_eq_true_eq]
  omega

/-- Every config accepted by the visualization validator is well formed. -/
theorem validateFix_wf {config cfg : Json} (h : validateFix config = .ok cfg) :
    wfChartB cfg = true := by
  unfold validateFix at h
  split at h
  · exact absurd h (by simp)
  · split at h
    next dataJ ls vs hd hl hv =>
      simp only [Except.ok.injEq] at h
      subst h
      exact wf_of_fixWrite hd hl hv
    next => exact absurd h (by simp)

/-- Every survivor of the auto filter is well formed. -/
theorem autoValidateViz_wf {viz v : Json} (h : autoValidateViz viz = .ok (some v)) :
    wfChartB v = true := by
  unfold autoValidateViz at h
  split at h
  · exact absurd h (by simp)
  · split at h
    · exact absurd h (by simp)
    · split at h
      next dataJ ls vs hd hl hv =>
        simp only [Except.ok.injEq, Option.some.injEq] at h
        subst h
        exact wf_of_fixWrite hd hl hv
      next => exact absurd h (by simp)

/-- Every chart the text salvage produces is well formed. -/
theorem extractViz_wf {text req : String} {data c : Json}
    (h : extractVisualizationFromText text req data = some c) : wfChartB c = true := by
  simp only [extractVisualizationFromText] at h
  split at h
  · exact absurd h (by simp)
  · next hn =>
    simp only [Option.some.injEq] at h
    subst h
    push_neg at hn
    refine wfChartB_mkVizConfig _ _ _ _ _ _ ?_
    simp only [List.length_map]
    rcases hn with ⟨-, -, h3⟩
    omega

/-- `exceptMapM` preserves length. -/
theorem exceptMapM_length {α β : Type} (f : α → Except Unit β) :
    ∀ (l : List α) (r : List β), exceptMapM f l = .ok r → r.length = l.length := by
  intro l
  induction l with
  | nil =>
    intro r h
    simp only [exceptMapM] at h
    cases h
    rfl
  | cons x t ih =>
    intro r h
    simp only [exceptMapM, bind, Except.bind] at h
    cases hf : f x <;> rw [hf] at h
    · exact absurd h (by simp)
    · cases hm : exceptMapM f t <;> rw [hm] at h
      · exact absurd h (by simp)
      · simp only [pure, Except.pure, Except.ok.injEq] at h
        subst h
        simp [ih _ hm]

/-- The viz-fallback chart builder is well formed when given as many
values as categories. -/
theorem wfChartB_vizFallbackBuild (ct ti sc sn : String) (categories : List String)
    (values : List JNum) (h : values.length = categories.length) :
    wfChartB (vizFallbackBuild ct ti sc sn categories values) = true := by
  refine wfChartB_mkVizConfig _ _ _ _ _ _ ?_
  simp [h]

/-- The auto-fallback chart builder is well formed when given as many
values as categories. -/
theorem wfChartB_autoFallbackBuild (ct cf nf : String) (categories : List (Option Json))
    (values : List JNum) (h : values.length = categories.length) :
    wfChartB (autoFallbackBuild ct cf nf categories values) = true := by
  refine wfChartB_mkVizConfig _ _ _ _ _ _ ?_
  simp [h]

/-- Every chart of the data-derived visualization fallback is well
formed. -/
theorem vizFallbackTry_wf {x : Json} {items : List Json} {req : String} {rand : Nat → Nat}
    {fb : Json} (h : vizFallbackTry x items req rand = .ok (some fb)) : wfChartB fb = true := by
  simp only [vizFallbackTry, bind, Except.bind] at h
  split at h
  · exact absurd h (by simp)
  · split at h
    · split at h
      · exact absurd h (by simp)
      · split at h
        · split at h
          · exact absurd h (by simp)
          · next values hvs =>
            simp only [Except.ok.injEq, Option.some.injEq] at h
            subst h
            refine wfChartB_vizFallbackBuild _ _ _ _ _ _ ?_
            rw [exceptMapM_length _ _ _ hvs, List.length_range]
        · exact absurd h (by simp)
    · exact absurd h (by simp)

/-- The visualization fallback generator only returns well-formed
charts. -/
theorem generateFallbackVisualization_wf (data : Json) (req : String) (rand : Nat → Nat) :
    wfChartB (generateFallbackVisualization data req rand) = true := by
  have hdef : wfChartB defaultFallback = true := rfl
  unfold generateFallbackVisualization
  split
  · next x xs =>
    split
    · split
      all_goals first
        | exact hdef
        | (rename_i fb hfb; exact vizFallbackTry_wf hfb)
    · exact hdef
  · exact hdef

/-- Every chart of one auto-fallback iteration is well formed. -/
theorem autoFallbackItem_wf {items : List Json} {cf nf : List String} {i : Nat} {v : Json}
    (h : autoFallbackItem items cf nf i = .ok (some v)) : wfChartB v = true := by
  simp only [autoFallbackItem, bind, Except.bind] at h
  split at h
  · exact absurd h (by simp)
  · split at h
    · exact absurd h (by simp)
    · split at h
      · exact absurd h (by simp)
      · next values hvs =>
        simp only [Except.ok.injEq, Option.some.injEq] at h
        subst h
        exact wfChartB_autoFallbackBuild _ _ _ _ _ (exceptMapM_length _ _ _ hvs)

/-- The auto-fallback accumulation loop only adds well-formed charts. -/
theorem autoFallbackGo_wf {items : List Json} {cf nf : List String} :
    ∀ (idxs : List Nat) (acc res : List Json),
      (∀ v ∈ acc, wfChartB v = true) →
      autoFallbackGo items cf nf acc idxs = .ok res →
      ∀ v ∈ res, wfChartB v = true := by
  intro idxs
  induction idxs with
  | nil =>
    intro acc res hacc h
    simp only [autoFallbackGo] at h
    cases h
    exact hacc
  | cons i rest ih =>
    intro acc res hacc h
    simp only [autoFallbackGo, bind, Except.bind] at h
    split at h
    · exact absurd h (by simp)
    · split at h
      · next v' hv' =>
        refine ih _ _ ?_ h
        intro v hv
        rcases List.mem_append.mp hv with hv1 | hv2
        · exact hacc v hv1
        · rw [List.mem_singleton.mp hv2]
          exact autoFallbackItem_wf hv'
      · exact ih _ _ hacc h

/-- Every chart of the auto fallback generator is well formed. -/
theorem generateFallbackVisualizations_wf (data : Json) (cf nf : List String) :
    ∀ v ∈ generateFallbackVisualizations data cf nf, wfChartB v = true := by
  unfold generateFallbackVisualizations
  split
  · next res hres => exact autoFallbackGo_wf _ _ _ (by simp) hres
  · simp

/-- Every config an attempt produces is well formed. -/
theorem processVizResponse_wf {text req : String} {data c : Json}
    (h : processVizResponse text req data = .ok c) : wfChartB c = true := by
  unfold processVizResponse at h
  split at h
  · exact absurd h (by simp)
  · split at h
    · split at h
      · next hv =>
        simp only [Except.ok.injEq] at h
        subst h
        exact validateFix_wf hv
      · unfold salvageOr at h
        split at h
        · next hs =>
          simp only [Except.ok.injEq] at h
          subst h
          exact extractViz_wf hs
        · exact absurd h (by simp)
    · unfold salvageOr at h
      split at h
      · next hs =>
        simp only [Except.ok.injEq] at h
        subst h
        exact extractViz_wf hs
      · exact absurd h (by simp)

/-- Every config the retry loop returns is well formed. -/
theorem vizAttempts_ok_wf {req : String} {data : Json} {oracle : Nat → ModelOutcome} :
    ∀ (r delay calls : Nat) (sleeps : List JNum) (le : String) (c : Json),
      (vizAttempts req data oracle r delay calls sleeps le).result = .ok c →
      wfChartB c = true := by
  intro r
  induction r with
  | zero => intro _ _ _ _ c h; exact absurd h (by simp [vizAttempts])
  | succ n ih =>
    intro delay calls sleeps le c h
    rw [vizAttempts] at h
    split at h
    · next cfg hcfg =>
      have hc : cfg = c := by simpa using h
      subst hc
      cases ho : oracle calls with
      | ok t =>
        unfold vizAttemptResult at hcfg
        rw [ho] at hcfg
        exact processVizResponse_wf hcfg
      | err m =>
        unfold vizAttemptResult at hcfg
        rw [ho] at hcfg
        simp at hcfg
    · exact ih _ _ _ _ _ h

/-- Every survivor list of the auto filter holds only well-formed
charts. -/
theorem autoFilterViz_wf : ∀ (items kept : List Json), autoFilterViz items = .ok kept →
    ∀ v ∈ kept, wfChartB v = true := by
  intro items
  induction items with
  | nil =>
    intro kept h
    simp only [autoFilterViz] at h
    cases h
    simp
  | cons viz rest ih =>
    intro kept h
    simp only [autoFilterViz, bind, Except.bind] at h
    split at h
    · exact absurd h (by simp)
    · next r hr =>
      split at h
      · exact absurd h (by simp)
      · next tail htail =>
        split at h
        · next w =>
          simp only [Except.ok.injEq] at h
          subst h
          intro v hv
          rcases List.mem_cons.mp hv with hv1 | hv2
          · rw [hv1]
            exact autoValidateViz_wf hr
          · exact ih _ htail v hv2
        · simp only [Except.ok.injEq] at h
          subst h
          exact ih _ htail

/-- Every list one auto attempt produces holds only well-formed charts. -/
theorem processAutoResponse_wf {text : String} {data : Json} {limCat limNum : List String}
    {b : Bool} {vs : List Json} (h : processAutoResponse text data limCat limNum = .ok (b, vs)) :
    ∀ v ∈ vs, wfChartB v = true := by
  unfold processAutoResponse at h
  split at h
  · exact absurd h (by simp)
  · split at h
    · split at h
      · next kept hkept =>
        split at h
        · simp only [Except.ok.injEq, Prod.mk.injEq] at h
          rw [← h.2]
          exact generateFallbackVisualizations_wf data limCat limNum
        · simp only [Except.ok.injEq, Prod.mk.injEq] at h
          rw [← h.2]
          intro v hv
          exact autoFilterViz_wf _ _ hkept v (List.take_subset 3 kept hv)
      · exact absurd h (by simp)
    · exact absurd h (by simp)
    · exact absurd h (by simp)

/-- Every list the auto retry loop returns holds only well-formed
charts. -/
theorem autoAttempts_wf {data : Json} {limCat limNum : List String} {oracle : Nat → ModelOutcome} :
    ∀ (r delay calls : Nat) (sleeps : List JNum),
      ∀ v ∈ (autoAttempts data limCat limNum oracle r delay calls sleeps).visualizations,
      wfChartB v = true := by
  intro r
  induction r with
  | zero =>
    intro delay calls sleeps
    simp only [autoAttempts]
    exact generateFallbackVisualizations_wf data limCat limNum
  | succ n ih =>
    intro delay calls sleeps
    rw [autoAttempts]
    split
    · next st vs hres =>
      cases ho : oracle calls with
      | ok t =>
        unfold autoAttemptResult at hres
        rw [ho] at hres
        exact processAutoResponse_wf hres
      | err m =>
        unfold autoAttemptResult at hres
        rw [ho] at hres
        simp at hres
    · exact ih _ _ _

/-- A fresh cache hit exposes the stored entry. -/
theorem vizCacheFresh_some {c : VizCache} {k : String} {now : Int} {cfg : Json}
    (h : vizCacheFresh c k now = some cfg) :
    ∃ e, cacheFind c k = some e ∧ e.config = cfg := by
  unfold vizCacheFresh at h
  split at h
  · next e he =>
    split at h
    · exact ⟨e, he, by simpa using h⟩
    · exact absurd h (by simp)
  · exact absurd h (by simp)

/-- A fresh auto cache hit exposes the stored entry. -/
theorem autoCacheFresh_some {c : AutoCache} {k : String} {now : Int} {vs : List Json}
    (h : autoCacheFresh c k now = some vs) :
    ∃ e, autoCacheFind c k = some e ∧ e.visualizations = vs := by
  unfold autoCacheFresh at h
  split at h
  · next e he =>
    split at h
    · exact ⟨e, he, by simpa using h⟩
    · exact absurd h (by simp)
  · exact absurd h (by simp)

/-- A successful core run yields a well-formed config, provided every
cached config is well formed. -/
theorem generateVisualizationCore_ok_wf {req : String} {data : Json} {oracle : Nat → ModelOutcome}
    {cache : VizCache} {now : Int} {cfg : Json}
    (hc : ∀ k e, cacheFind cache k = some e → wfChartB e.config = true)
    (h : (generateVisualizationCore req data oracle cache now).result = Except.ok cfg) :
    wfChartB cfg = true := by
  unfold generateVisualizationCore at h
  split at h
  · next cfg' hfresh =>
    have he : cfg' = cfg := by simpa using h
    subst he
    obtain ⟨e, hfind, hecfg⟩ := vizCacheFresh_some hfresh
    rw [← hecfg]
    exact hc _ _ hfind
  · split at h
    · simp at h
    · split at h
      · next c' hres =>
        have he : c' = cfg := by simpa using h
        subst he
        exact vizAttempts_ok_wf _ _ _ _ _ _ hres
      · simp at h

/-- A successful auto core run yields only well-formed charts, provided
every cached list does. -/
theorem generateAutoVisualizationsCore_ok_wf {data : Json} {oracle : Nat → ModelOutcome}
    {cache : AutoCache} {now : Int} {vs : List Json}
    (hc : ∀ k e, autoCacheFind cache k = some e → ∀ v ∈ e.visualizations, wfChartB v = true)
    (h : (generateAutoVisualizationsCore data oracle cache now).result = Except.ok vs) :
    ∀ v ∈ vs, wfChartB v = true := by
  unfold generateAutoVisualizationsCore at h
  split at h
  · next vs' hfresh =>
    have he : vs' = vs := by simpa using h
    subst he
    obtain ⟨e, hfind, hevs⟩ := autoCacheFresh_some hfresh
    rw [← hevs]
    exact hc _ _ hfind
  · split at h
    · rename_i x xs hnone
      split at h
      · simp at h
      · split at h
        · have he : ([] : List Json) = vs := by simpa using h
          rw [← he]
          simp
        · split at h
          · have he : (autoAttemptsAt x xs oracle).visualizations = vs := by simpa using h
            rw [← he]
            exact autoAttempts_wf _ _ _ _
          · have he : (autoAttemptsAt x xs oracle).visualizations = vs := by simpa using h
            rw [← he]
            exact autoAttempts_wf _ _ _ _
    · have he : ([] : List Json) = vs := by simpa using h
      rw [← he]
      simp

/-! ### Lemmas: the retry loop and the cache -/

/-- A freshly stored entry is found under its key. -/
theorem cacheFind_store_self (k : String) (e : VizCacheEntry) (c : VizCache) :
    cacheFind (cacheStore k e c) k = some e := by
  simp [cacheStore, cacheFind]

/-- Erasing a key makes its lookup miss. -/
theorem cacheFind_erase (k : String) (c : VizCache) : cacheFind (cacheErase k c) k = none := by
  induction c with
  | nil => rfl
  | cons p r ih =>
    by_cases hp : p.1 = k
    · simpa [cacheErase, hp] using ih
    · simpa [cacheErase, cacheFind, hp] using ih

/-- With a first-attempt success the loop stops at one call and no
sleeps. -/
theorem vizAttempts_first_ok {req : String} {data : Json} {oracle : Nat → ModelOutcome}
    {t : String} {cfg : Json} (h3 : oracle 0 = ModelOutcome.ok t)
    (h4 : processVizResponse t req data = Except.ok cfg) :
    vizAttempts req data oracle 3 1000 0 [] "" = ⟨Except.ok cfg, [], 1⟩ := by
  have hres : vizAttemptResult (oracle 0) req data = Except.ok cfg := by
    unfold vizAttemptResult
    rw [h3]
    exact h4
  rw [vizAttempts, hres]

/-- If every attempt in the window fails, the loop exhausts with an
error. -/
theorem vizAttempts_all_fail {req : String} {data : Json} {oracle : Nat → ModelOutcome} :
    ∀ (r delay calls : Nat) (sleeps : List JNum) (le : String),
      (∀ i, calls ≤ i → i < calls + r → ∃ m, vizAttemptResult (oracle i) req data = .error m) →
      ∃ e, (vizAttempts req data oracle r delay calls sleeps le).result = .error e := by
  intro r
  induction r with
  | zero => intro delay calls sleeps le _; exact ⟨_, rfl⟩
  | succ n ih =>
    intro delay calls sleeps le hfail
    obtain ⟨m, hm⟩ := hfail calls (le_refl _) (by omega)
    rw [vizAttempts, hm]
    exact ih _ _ _ _ (fun i h1 h2 => hfail i (by omega) (by omega))

/-- The loop never decreases the call counter. -/
theorem vizAttempts_calls_le {req : String} {data : Json} {oracle : Nat → ModelOutcome} :
    ∀ (r delay calls : Nat) (sleeps : List JNum) (le : String),
      calls ≤ (vizAttempts req data oracle r delay calls sleeps le).calls := by
  intro r
  induction r with
  | zero => intro _ calls _ _; exact le_refl _
  | succ n ih =>
    intro delay calls sleeps le
    rw [vizAttempts]
    split
    · simp
    · exact le_trans (Nat.le_succ _) (ih _ _ _ _)

/-- The caller-facing record just re-exposes the core's components. -/
theorem generateVisualization_proj (req : String) (data : Json) (oracle : Nat → ModelOutcome)
    (cache : VizCache) (now : Int) (rand : Nat → Nat) :
    (generateVisualization req data oracle cache now rand).modelCalls =
        (generateVisualizationCore req data oracle cache now).calls ∧
    (generateVisualization req data oracle cache now rand).sleeps =
        (generateVisualizationCore req data oracle cache now).sleeps ∧
    (generateVisualization req data oracle cache now rand).cache =
        (generateVisualizationCore req data oracle cache now).cache := by
  unfold generateVisualization
  split <;> exact ⟨rfl, rfl, rfl⟩

/-- After a miss and a throw-free prompt phase, the core's trace is the
loop's trace. -/
theorem generateVisualizationCore_loop {req : String} {data : Json} {oracle : Nat → ModelOutcome}
    {cache : VizCache} {now : Int}
    (hmiss : vizCacheFresh cache (vizCacheKey req data) now = none)
    (hpre : vizPre data = Except.ok ()) :
    (generateVisualizationCore req data oracle cache now).calls =
        (vizAttempts req data oracle 3 1000 0 [] "").calls ∧
    (generateVisualizationCore req data oracle cache now).sleeps =
        (vizAttempts req data oracle 3 1000 0 [] "").sleeps ∧
    (generateVisualizationCore req data oracle cache now).result =
        (vizAttempts req data oracle 3 1000 0 [] "").result := by
  unfold generateVisualizationCore
  simp only [hmiss, hpre]
  split
  · next cfg heq => exact ⟨rfl, rfl, heq.symm⟩
  · next e heq => exact ⟨rfl, rfl, heq.symm⟩

/-- With a miss and a throw-free prompt phase, at least one model call
is made. -/
theorem generateVisualization_calls_pos {req : String} {data : Json} {oracle : Nat → ModelOutcome}
    {cache : VizCache} {now : Int} {rand : Nat → Nat}
    (hmiss : vizCacheFresh cache (vizCacheKey req data) now = none)
    (hpre : vizPre data = Except.ok ()) :
    1 ≤ (generateVisualization req data oracle cache now rand).modelCalls := by
  have hcalls : 1 ≤ (vizAttempts req data oracle 3 1000 0 [] "").calls := by
    rw [vizAttempts]
    split
    · simp
    · exact le_trans (by omega) (vizAttempts_calls_le _ _ _ _ _)
  rw [(generateVisualization_proj req data oracle cache now rand).1,
      (generateVisualizationCore_loop hmiss hpre).1]
  exact hcalls

/-- On a loop success after a miss, the core stores the returned config
under the request key. -/
theorem generateVisualizationCore_store {req : String} {data : Json} {oracle : Nat → ModelOutcome}
    {cache : VizCache} {now : Int} {cfg : Json}
    (hmiss : vizCacheFresh cache (vizCacheKey req data) now = none)
    (hpre : vizPre data = Except.ok ())
    (h : (vizAttempts req data oracle 3 1000 0 [] "").result = Except.ok cfg) :
    (generateVisualizationCore req data oracle cache now).result = Except.ok cfg ∧
    (generateVisualizationCore req data oracle cache now).cache =
      cacheStore (vizCacheKey req data) ⟨cfg, now⟩ cache := by
  unfold generateVisualizationCore
  simp only [hmiss, hpre, h]
  constructor <;> trivial

/-- On loop exhaustion after a miss, the core reports the error and
leaves the cache untouched. -/
theorem generateVisualizationCore_exhaust {req : String} {data : Json}
    {oracle : Nat → ModelOutcome} {cache : VizCache} {now : Int} {e : String}
    (hmiss : vizCacheFresh cache (vizCacheKey req data) now = none)
    (hpre : vizPre data = Except.ok ())
    (h : (vizAttempts req data oracle 3 1000 0 [] "").result = Except.error e) :
    (generateVisualizationCore req data oracle cache now).result = Except.error e ∧
    (generateVisualizationCore req data oracle cache now).cache = cache := by
  unfold generateVisualizationCore
  simp only [hmiss, hpre, h]
  constructor <;> trivial

/-- A core error surfaces as the fallback chart. -/
theorem generateVisualization_config_err {req : String} {data : Json} {oracle : Nat → ModelOutcome}
    {cache : VizCache} {now : Int} {rand : Nat → Nat} {e : String}
    (h : (generateVisualizationCore req data oracle cache now).result = Except.error e) :
    (generateVisualization req data oracle cache now rand).config =
      generateFallbackVisualization data req rand := by
  unfold generateVisualization
  split
  · next cfg heq => rw [h] at heq; simp at heq
  · rfl

/-- A core success surfaces unchanged. -/
theorem generateVisualization_config_ok {req : String} {data : Json} {oracle : Nat → ModelOutcome}
    {cache : VizCache} {now : Int} {rand : Nat → Nat} {cfg : Json}
    (h : (generateVisualizationCore req data oracle cache now).result = Except.ok cfg) :
    (generateVisualization req data oracle cache now rand).config = cfg := by
  unfold generateVisualization
  split
  · next cfg' heq =>
    rw [h] at heq
    simpa using heq.symm
  · next e heq => rw [h] at heq; simp at heq

/-- The auto wrapper re-exposes the core's bookkeeping. -/
theorem generateAutoVisualizations_proj (data : Json) (oracle : Nat → ModelOutcome)
    (cache : AutoCache) (now : Int) :
    (generateAutoVisualizations data oracle cache now).modelCalls =
        (generateAutoVisualizationsCore data oracle cache now).calls ∧
    (generateAutoVisualizations data oracle cache now).cache =
        (generateAutoVisualizationsCore data oracle cache now).cache ∧
    (generateAutoVisualizations data oracle cache now).sleeps =
        (generateAutoVisualizationsCore data oracle cache now).sleeps := by
  unfold generateAutoVisualizations
  split <;> exact ⟨rfl, rfl, rfl⟩

/-- An auto core success surfaces unchanged. -/
theorem generateAutoVisualizations_vis_ok {data : Json} {oracle : Nat → ModelOutcome}
    {cache : AutoCache} {now : Int} {vs : List Json}
    (h : (generateAutoVisualizationsCore data oracle cache now).result = Except.ok vs) :
    (generateAutoVisualizations data oracle cache now).visualizations = vs := by
  unfold generateAutoVisualizations
  split
  · next vs' heq =>
    rw [h] at heq
    simpa using heq.symm
  · next e heq => rw [h] at heq; simp at heq

/-- An auto core error surfaces as the empty sequence. -/
theorem generateAutoVisualizations_vis_err {data : Json} {oracle : Nat → ModelOutcome}
    {cache : AutoCache} {now : Int} {e : String}
    (h : (generateAutoVisualizationsCore data oracle cache now).result = Except.error e) :
    (generateAutoVisualizations data oracle cache now).visualizations = [] := by
  unfold generateAutoVisualizations
  split
  · next vs' heq => rw [h] at heq; simp at heq
  · rfl

/-! ### The verified claims -/

/-- C1 (counterexample): `generateVisualization` can return a validated
chart whose `labels` and `values` are both empty — the validator's
truthiness checks pass on empty arrays (`![]` is `false` in JavaScript)
and the common length 0 is accepted, so the claimed `length >= 1` fails
on the success path. -/
theorem generateVisualization_can_return_empty_chart :
    chartLabels (generateVisualization "q" (Json.arr [])
        (fun _ => ModelOutcome.ok emptyArraysResponse) [] 0 (fun _ => 0)).config
      = some (Json.arr []) ∧
    chartValues (generateVisualization "q" (Json.arr [])
        (fun _ => ModelOutcome.ok emptyArraysResponse) [] 0 (fun _ => 0)).config
      = some (Json.arr []) := ⟨rfl, rfl⟩

/-- C1 (amended): every chart returned by `generateVisualization`, and
every chart in a `generateAutoVisualizations` result, has `data.labels`
and `data.values` arrays of one common length — which may be 0 —
provided every cached entry already satisfies this (the pipeline itself
establishes it on every store). -/
theorem returned_chart_labels_values_length_eq :
    (∀ (req : String) (data : Json) (oracle : Nat → ModelOutcome) (cache : VizCache) (now : Int)
       (rand : Nat → Nat),
       (∀ k e, cacheFind cache k = some e → wfChartB e.config = true) →
       wfChartB (generateVisualization req data oracle cache now rand).config = true) ∧
    (∀ (data : Json) (oracle : Nat → ModelOutcome) (cache : AutoCache) (now : Int),
       (∀ k e, autoCacheFind cache k = some e → ∀ v ∈ e.visualizations, wfChartB v = true) →
       ∀ v ∈ (generateAutoVisualizations data oracle cache now).visualizations,
         wfChartB v = true) := by
  constructor
  · intro req data oracle cache now rand hc
    cases hres : (generateVisualizationCore req data oracle cache now).result with
    | ok cfg =>
      rw [generateVisualization_config_ok hres]
      exact generateVisualizationCore_ok_wf hc hres
    | error e =>
      rw [generateVisualization_config_err hres]
      exact generateFallbackVisualization_wf data req rand
  · intro data oracle cache now hc
    cases hres : (generateAutoVisualizationsCore data oracle cache now).result with
    | ok vs =>
      rw [generateAutoVisualizations_vis_ok hres]
      exact generateAutoVisualizationsCore_ok_wf hc hres
    | error e =>
      rw [generateAutoVisualizations_vis_err hres]
      simp

/-- C1 (witness): the amended claim applied at a concrete exhausted run
and a concrete empty-cache auto run. -/
theorem returned_chart_labels_values_length_eq_witness :
    wfChartB (generateVisualization "w" (Json.arr [])
        (fun _ => ModelOutcome.err "boom") [] 0 (fun _ => 0)).config = true ∧
    (∀ v ∈ (generateAutoVisualizations (Json.arr [])
        (fun _ => ModelOutcome.err "boom") [] 0).visualizations, wfChartB v = true) := by
  constructor
  · exact returned_chart_labels_values_length_eq.1 "w" (Json.arr []) _ [] 0 _
      (fun k e h => by simp [cacheFind] at h)
  · exact returned_chart_labels_values_length_eq.2 (Json.arr []) _ [] 0
      (fun k e h => by simp [autoCacheFind] at h)

/-- C2: the truncation law of the normalizer — on labels of length `m`
and values of length `n` it yields exactly the `min m n`-prefixes of
both inputs (so order is preserved and no element is invented), and both
outputs have length `min m n`. -/
theorem fixPair_truncation_law (labels values : List Json) :
    (fixPair labels values).1 = labels.take (min labels.length values.length) ∧
    (fixPair labels values).2 = values.take (min labels.length values.length) ∧
    (fixPair labels values).1.length = min labels.length values.length ∧
    (fixPair labels values).2.length = min labels.length values.length := by
  rw [fixPair_eq]
  refine ⟨rfl, rfl, ?_, ?_⟩ <;> (simp only [List.length_take]; omega)

/-- C3 (counterexample): on the defect-free valid JSON
`{"a":"http://x"}` the pipeline extracts the whole span and direct
parsing succeeds, but the line-comment repair truncates the text at the
`//` inside the string literal, so parsing the repaired text fails —
the round-trip does not recover the original structure. -/
theorem pipeline_roundtrip_fails_on_slashes :
    extractJsonSpan slashUrlJson = some slashUrlJson ∧
    (parseJson slashUrlJson).isSome = true ∧
    parseJson (cleanJsonString slashUrlJson) = none := ⟨rfl, rfl, rfl⟩

/-- C3 (amended): the round-trip holds for every extracted span that
contains none of the repair-targeted textual patterns (no `...`, no
comma-whitespace-`]`/`}`, no `//`, no `/*` — not even inside string
literals): there the repair is the identity and parse results coincide
(in particular the pipeline succeeds whenever direct parsing does). -/
theorem pipeline_roundtrip_of_no_triggers (text span : String)
    (hx : extractJsonSpan text = some span) (ht : noRepairTriggers span = true) :
    cleanJsonString span = span ∧
    parseJson (cleanJsonString span) = parseJson span := by
  have hid := cleanJsonString_id span ht
  exact ⟨hid, by rw [hid]⟩

/-- C3 (witness): the amended round-trip at a concrete span. -/
theorem pipeline_roundtrip_of_no_triggers_witness :
    cleanJsonString plainSpanJson = plainSpanJson ∧
    parseJson (cleanJsonString plainSpanJson) = parseJson plainSpanJson :=
  pipeline_roundtrip_of_no_triggers plainSpanJson plainSpanJson (by rfl) (by rfl)

/-- C4 (counterexample): `cleanJsonString` is not idempotent on
already-valid JSON — on `["a,/*x*/]"]` the block-comment repair of the
first pass exposes a `,]` that only the second pass strips, so the two
results differ (and with them the per-rule idempotence/order claim
fails). -/
theorem cleanJsonString_not_idempotent_on_valid_json :
    (parseJson commentTrapJson).isSome = true ∧
    cleanJsonString (cleanJsonString commentTrapJson) ≠ cleanJsonString commentTrapJson := by
  refine ⟨rfl, ?_⟩
  decide

/-- C4 (amended): `cleanJsonString` is idempotent on exactly the inputs
none of whose targeted textual patterns occur (there it is the
identity); in general — even on valid JSON — one rule's rewrite can
expose a later rule's pattern, so a second application can differ. -/
theorem cleanJsonString_idempotent_of_no_triggers (s : String)
    (h : noRepairTriggers s = true) :
    cleanJsonString s = s ∧
    cleanJsonString (cleanJsonString s) = cleanJsonString s := by
  have hid := cleanJsonString_id s h
  refine ⟨hid, ?_⟩
  rw [hid]
  exact hid

/-- C4 (witness): the amended idempotence at a concrete valid JSON
text. -/
theorem cleanJsonString_idempotent_of_no_triggers_witness :
    cleanJsonString plainSpanJson = plainSpanJson ∧
    cleanJsonString (cleanJsonString plainSpanJson) = cleanJsonString plainSpanJson :=
  cleanJsonString_idempotent_of_no_triggers plainSpanJson (by rfl)

/-- C6: on a rate-limit failure (message contains "Rate limit reached")
the retry controller sleeps the parsed `try again in <float>s`
suggestion times 1000 when present and the current backoff value when
absent, and in both cases the backoff value is left undoubled. -/
theorem rate_limit_wait_handling (m : String) (delay : Nat) (hrl : isRateLimitMsg m = true) :
    (∀ w, parseRetryWait m = some w → handleAttemptError m delay = (w.mul1000, delay)) ∧
    (parseRetryWait m = none → handleAttemptError m delay = (JNum.ofNat delay, delay)) := by
  constructor
  · intro w hw
    simp [handleAttemptError, hrl, hw]
  · intro hw
    simp [handleAttemptError, hrl, hw]

/-- C6 (witness): a message with a `12.34s` suggestion sleeps 12340 ms;
one without sleeps the current 1000 ms backoff; neither doubles it. -/
theorem rate_limit_wait_handling_witness :
    handleAttemptError "Rate limit reached. Please try again in 12.34s." 1000
      = (JNum.dec 1234 1, 1000) ∧
    handleAttemptError "Rate limit reached, slow down" 1000 = (JNum.dec 1000 0, 1000) := by
  constructor
  · have h := (rate_limit_wait_handling "Rate limit reached. Please try again in 12.34s." 1000
      (by decide)).1 (JNum.dec 1234 (-2)) (by decide)
    exact h.trans (by decide)
  · have h := (rate_limit_wait_handling "Rate limit reached, slow down" 1000
      (by decide)).2 (by decide)
    exact h.trans (by decide)

/-- C5: when three consecutive attempts fail with non-rate-limit errors
(a cache miss, throw-free prompt phase), the sleeps performed are
exactly 1000, 2000, 4000 ms — the Nth retry waits `1000 * 2^(N-1)` —
exactly 3 model calls are made, and the caller receives the
deterministic fallback chart instead of a raised error. -/
theorem backoff_delays_and_fallback (req : String) (data : Json)
    (oracle : Nat → ModelOutcome) (cache : VizCache) (now : Int) (rand : Nat → Nat)
    (hmiss : vizCacheFresh cache (vizCacheKey req data) now = none)
    (hpre : vizPre data = Except.ok ())
    (hfail : ∀ i, i < 3 → ∃ m, vizAttemptResult (oracle i) req data = Except.error m ∧
       isRateLimitMsg m = false) :
    (generateVisualization req data oracle cache now rand).sleeps =
      [JNum.ofNat 1000, JNum.ofNat 2000, JNum.ofNat 4000] ∧
    (generateVisualization req data oracle cache now rand).modelCalls = 3 ∧
    (generateVisualization req data oracle cache now rand).config =
      generateFallbackVisualization data req rand := by
  obtain ⟨m0, h0, h0r⟩ := hfail 0 (by omega)
  obtain ⟨m1, h1, h1r⟩ := hfail 1 (by omega)
  obtain ⟨m2, h2, h2r⟩ := hfail 2 (by omega)
  have hh0 : handleAttemptError m0 1000 = (JNum.ofNat 1000, 2000) := by
    unfold handleAttemptError
    rw [h0r]
    rfl
  have hh1 : handleAttemptError m1 2000 = (JNum.ofNat 2000, 4000) := by
    unfold handleAttemptError
    rw [h1r]
    rfl
  have hh2 : handleAttemptError m2 4000 = (JNum.ofNat 4000, 8000) := by
    unfold handleAttemptError
    rw [h2r]
    rfl
  have e1 : vizAttempts req data oracle 3 1000 0 [] "" =
      vizAttempts req data oracle 2 2000 1 [JNum.ofNat 1000] m0 := by
    rw [vizAttempts, h0]
    change vizAttempts req data oracle 2 (handleAttemptError m0 1000).2 (0 + 1)
        ([] ++ [(handleAttemptError m0 1000).1]) m0 = _
    rw [hh0]
    rfl
  have e2 : vizAttempts req data oracle 2 2000 1 [JNum.ofNat 1000] m0 =
      vizAttempts req data oracle 1 4000 2 [JNum.ofNat 1000, JNum.ofNat 2000] m1 := by
    rw [vizAttempts, h1]
    change vizAttempts req data oracle 1 (handleAttemptError m1 2000).2 (1 + 1)
        ([JNum.ofNat 1000] ++ [(handleAttemptError m1 2000).1]) m1 = _
    rw [hh1]
    rfl
  have e3 : vizAttempts req data oracle 1 4000 2 [JNum.ofNat 1000, JNum.ofNat 2000] m1 =
      ⟨Except.error ("Failed after 3 attempts. Last error: " ++ m2),
       [JNum.ofNat 1000, JNum.ofNat 2000, JNum.ofNat 4000], 3⟩ := by
    rw [vizAttempts, h2]
    change vizAttempts req data oracle 0 (handleAttemptError m2 4000).2 (2 + 1)
        ([JNum.ofNat 1000, JNum.ofNat 2000] ++ [(handleAttemptError m2 4000).1]) m2 = _
    rw [hh2]
    rfl
  have hfull : vizAttempts req data oracle 3 1000 0 [] "" =
      ⟨Except.error ("Failed after 3 attempts. Last error: " ++ m2),
       [JNum.ofNat 1000, JNum.ofNat 2000, JNum.ofNat 4000], 3⟩ := by
    rw [e1, e2, e3]
  have herr : (vizAttempts req data oracle 3 1000 0 [] "").result =
      Except.error ("Failed after 3 attempts. Last error: " ++ m2) := by rw [hfull]
  have hcore := generateVisualizationCore_exhaust hmiss hpre herr
  refine ⟨?_, ?_, ?_⟩
  · rw [(generateVisualization_proj req data oracle cache now rand).2.1,
        (generateVisualizationCore_loop hmiss hpre).2.1, hfull]
  · rw [(generateVisualization_proj req data oracle cache now rand).1,
        (generateVisualizationCore_loop hmiss hpre).1, hfull]
  · exact generateVisualization_config_err hcore.1

/-- C5 (witness): the backoff law at a concrete exhausting run. -/
theorem backoff_delays_and_fallback_witness :
    (generateVisualization "r" (Json.arr []) (fun _ => ModelOutcome.err "boom")
        [] 0 (fun _ => 0)).sleeps = [JNum.ofNat 1000, JNum.ofNat 2000, JNum.ofNat 4000] ∧
    (generateVisualization "r" (Json.arr []) (fun _ => ModelOutcome.err "boom")
        [] 0 (fun _ => 0)).modelCalls = 3 ∧
    (generateVisualization "r" (Json.arr []) (fun _ => ModelOutcome.err "boom")
        [] 0 (fun _ => 0)).config =
      generateFallbackVisualization (Json.arr []) "r" (fun _ => 0) :=
  backoff_delays_and_fallback "r" (Json.arr []) (fun _ => ModelOutcome.err "boom")
    [] 0 (fun _ => 0) rfl rfl (fun i _ => ⟨"boom", rfl, by decide⟩)

/-- C7: no raised error reaches a caller — for every input,
`generateVisualization` returns either the successfully processed chart
or the deterministic fallback chart, `generateAutoVisualizations`
returns either the produced list or the empty sequence, and
`analyzeData` returns either the model's trimmed text or the fixed
apologetic message. -/
theorem no_raised_error_surfaces :
    (∀ (req : String) (data : Json) (oracle : Nat → ModelOutcome) (cache : VizCache)
       (now : Int) (rand : Nat → Nat),
       (∃ cfg, (generateVisualizationCore req data oracle cache now).result = Except.ok cfg ∧
          (generateVisualization req data oracle cache now rand).config = cfg) ∨
       (generateVisualization req data oracle cache now rand).config =
          generateFallbackVisualization data req rand) ∧
    (∀ (data : Json) (oracle : Nat → ModelOutcome) (cache : AutoCache) (now : Int),
       (∃ vs, (generateAutoVisualizationsCore data oracle cache now).result = Except.ok vs ∧
          (generateAutoVisualizations data oracle cache now).visualizations = vs) ∨
       (generateAutoVisualizations data oracle cache now).visualizations = []) ∧
    (∀ (data : Json) (o : ModelOutcome),
       (∃ s, analyzeDataCore data o = Except.ok s ∧ analyzeData data o = s) ∨
       analyzeData data o = analysisFailureMessage) := by
  refine ⟨?_, ?_, ?_⟩
  · intro req data oracle cache now rand
    cases h : (generateVisualizationCore req data oracle cache now).result with
    | ok cfg => exact Or.inl ⟨cfg, rfl, generateVisualization_config_ok h⟩
    | error e => exact Or.inr (generateVisualization_config_err h)
  · intro data oracle cache now
    cases h : (generateAutoVisualizationsCore data oracle cache now).result with
    | ok vs => exact Or.inl ⟨vs, rfl, generateAutoVisualizations_vis_ok h⟩
    | error e => exact Or.inr (generateAutoVisualizations_vis_err h)
  · intro data o
    cases h : analyzeDataCore data o with
    | ok s =>
      refine Or.inl ⟨s, rfl, ?_⟩
      unfold analyzeData
      rw [h]
    | error e =>
      refine Or.inr ?_
      unfold analyzeData
      rw [h]

/-- Two runs whose cache lookups both miss have the same result, sleeps
and call count (only the returned cache may differ). -/
theorem generateVisualizationCore_miss_trace {req : String} {data : Json}
    {oracle : Nat → ModelOutcome} {c1 c2 : VizCache} {n1 n2 : Int}
    (h1 : vizCacheFresh c1 (vizCacheKey req data) n1 = none)
    (h2 : vizCacheFresh c2 (vizCacheKey req data) n2 = none) :
    (generateVisualizationCore req data oracle c1 n1).result =
      (generateVisualizationCore req data oracle c2 n2).result ∧
    (generateVisualizationCore req data oracle c1 n1).sleeps =
      (generateVisualizationCore req data oracle c2 n2).sleeps ∧
    (generateVisualizationCore req data oracle c1 n1).calls =
      (generateVisualizationCore req data oracle c2 n2).calls := by
  unfold generateVisualizationCore
  rw [h1, h2]
  cases vizPre data with
  | error e => exact ⟨rfl, rfl, rfl⟩
  | ok u =>
    cases (vizAttempts req data oracle 3 1000 0 [] "").result with
    | ok cfg => exact ⟨rfl, rfl, rfl⟩
    | error e => exact ⟨rfl, rfl, rfl⟩

/-- C8: a first call that misses the cache and succeeds on its first
attempt makes exactly one model call and caches the chart; a second
call with the same pair within the 10-minute TTL returns that chart
with zero model calls (one call total across the two); and a lookup
older than the TTL behaves exactly like a miss — the call's chart,
sleeps and call count equal those of the same call with the entry
erased. -/
theorem cache_second_call_no_model_call (req : String) (data : Json)
    (oracle oracle2 : Nat → ModelOutcome) (cache : VizCache) (now now2 now3 : Int)
    (rand rand2 : Nat → Nat) (t : String) (cfg : Json)
    (hmiss : vizCacheFresh cache (vizCacheKey req data) now = none)
    (hpre : vizPre data = Except.ok ())
    (hok : oracle 0 = ModelOutcome.ok t)
    (hproc : processVizResponse t req data = Except.ok cfg)
    (hfresh : now2 - now < CACHE_TTL)
    (hexp : CACHE_TTL ≤ now3 - now) :
    (generateVisualization req data oracle cache now rand).config = cfg ∧
    (generateVisualization req data oracle cache now rand).modelCalls = 1 ∧
    (generateVisualization req data oracle2
        (generateVisualization req data oracle cache now rand).cache now2 rand2).config = cfg ∧
    (generateVisualization req data oracle2
        (generateVisualization req data oracle cache now rand).cache now2 rand2).modelCalls
      = 0 ∧
    (generateVisualization req data oracle2
        (generateVisualization req data oracle cache now rand).cache now3 rand2).config =
      (generateVisualization req data oracle2
        (cacheErase (vizCacheKey req data)
          (generateVisualization req data oracle cache now rand).cache) now3 rand2).config ∧
    (generateVisualization req data oracle2
        (generateVisualization req data oracle cache now rand).cache now3 rand2).modelCalls =
      (generateVisualization req data oracle2
        (cacheErase (vizCacheKey req data)
          (generateVisualization req data oracle cache now rand).cache) now3 rand2).modelCalls := by
  have hloop := vizAttempts_first_ok hok hproc
  have hres : (vizAttempts req data oracle 3 1000 0 [] "").result = Except.ok cfg := by
    rw [hloop]
  have hstore := generateVisualizationCore_store hmiss hpre hres
  have hc1 : (generateVisualization req data oracle cache now rand).cache =
      cacheStore (vizCacheKey req data) ⟨cfg, now⟩ cache :=
    (generateVisualization_proj req data oracle cache now rand).2.2.trans hstore.2
  have hfind2 : vizCacheFresh (cacheStore (vizCacheKey req data) ⟨cfg, now⟩ cache)
      (vizCacheKey req data) now2 = some cfg := by
    unfold vizCacheFresh
    rw [cacheFind_store_self]
    exact if_pos hfresh
  have hcore2 : generateVisualizationCore req data oracle2
      (cacheStore (vizCacheKey req data) ⟨cfg, now⟩ cache) now2 =
      ⟨Except.ok cfg, cacheStore (vizCacheKey req data) ⟨cfg, now⟩ cache, [], 0⟩ := by
    unfold generateVisualizationCore
    rw [hfind2]
  have hm1 : vizCacheFresh (cacheStore (vizCacheKey req data) ⟨cfg, now⟩ cache)
      (vizCacheKey req data) now3 = none := by
    unfold vizCacheFresh
    rw [cacheFind_store_self]
    have hlt : ¬ now3 - now < CACHE_TTL := by omega
    exact if_neg hlt
  have hm2 : vizCacheFresh (cacheErase (vizCacheKey req data)
      (cacheStore (vizCacheKey req data) ⟨cfg, now⟩ cache)) (vizCacheKey req data) now3 = none := by
    unfold vizCacheFresh
    rw [cacheFind_erase]
  have htrace := @generateVisualizationCore_miss_trace req data oracle2 _ _ now3 now3 hm1 hm2
  rw [hc1]
  refine ⟨generateVisualization_config_ok hstore.1, ?_, ?_, ?_, ?_, ?_⟩
  · rw [(generateVisualization_proj req data oracle cache now rand).1,
        (generateVisualizationCore_loop hmiss hpre).1, hloop]
  · exact generateVisualization_config_ok (by rw [hcore2])
  · rw [(generateVisualization_proj req data oracle2
        (cacheStore (vizCacheKey req data) ⟨cfg, now⟩ cache) now2 rand2).1, hcore2]
  · cases hra : (generateVisualizationCore req data oracle2
        (cacheStore (vizCacheKey req data) ⟨cfg, now⟩ cache) now3).result with
    | ok c =>
      rw [generateVisualization_config_ok hra,
          generateVisualization_config_ok (htrace.1.symm.trans hra)]
    | error e =>
      rw [generateVisualization_config_err hra,
          generateVisualization_config_err (htrace.1.symm.trans hra)]
  · rw [(generateVisualization_proj req data oracle2
        (cacheStore (vizCacheKey req data) ⟨cfg, now⟩ cache) now3 rand2).1,
        (generateVisualization_proj req data oracle2
          (cacheErase (vizCacheKey req data)
            (cacheStore (vizCacheKey req data) ⟨cfg, now⟩ cache)) now3 rand2).1,
        htrace.2.2]

/-- C8 (witness): a concrete pair of calls — the first makes one model
call, the second (1 ms later, same key) makes none. -/
theorem cache_second_call_no_model_call_witness :
    (generateVisualization "c8" (Json.arr []) (fun _ => ModelOutcome.ok okChartResponse)
        [] 0 (fun _ => 0)).modelCalls = 1 ∧
    (generateVisualization "c8" (Json.arr []) (fun _ => ModelOutcome.ok okChartResponse)
        (generateVisualization "c8" (Json.arr []) (fun _ => ModelOutcome.ok okChartResponse)
          [] 0 (fun _ => 0)).cache 1 (fun _ => 0)).modelCalls = 0 := by
  have h := cache_second_call_no_model_call "c8" (Json.arr [])
    (fun _ => ModelOutcome.ok okChartResponse) (fun _ => ModelOutcome.ok okChartResponse)
    [] 0 1 600000 (fun _ => 0) (fun _ => 0) okChartResponse _ rfl rfl rfl rfl
    (by decide) (by decide)
  exact ⟨h.2.1, h.2.2.2.1⟩

/-- C9: when the cache lookup misses and the pre-model guard fails —
the data is not a non-empty array, or its first record yields no
numeric field or no categorical field — `generateAutoVisualizations`
returns the empty sequence and issues no model call. -/
theorem auto_empty_without_model_call (data : Json) (oracle : Nat → ModelOutcome)
    (cache : AutoCache) (now : Int)
    (hmiss : autoCacheFresh cache (autoCacheKey data) now = none)
    (hguard : autoGuardFails data = true) :
    (generateAutoVisualizations data oracle cache now).visualizations = [] ∧
    (generateAutoVisualizations data oracle cache now).modelCalls = 0 := by
  have hcore : ((generateAutoVisualizationsCore data oracle cache now).result = Except.ok [] ∨
      (generateAutoVisualizationsCore data oracle cache now).result = Except.error "TypeError") ∧
      (generateAutoVisualizationsCore data oracle cache now).calls = 0 := by
    cases data with
    | arr l =>
      cases l with
      | nil =>
        simp only [generateAutoVisualizationsCore, hmiss]
        exact ⟨Or.inl (by trivial), by trivial⟩
      | cons x xs =>
        cases hk : jsKeys x with
        | error e =>
          simp only [generateAutoVisualizationsCore, hmiss, hk]
          exact ⟨Or.inr (by trivial), by trivial⟩
        | ok fields =>
          simp only [autoGuardFails, hk] at hguard
          have hcond : numericFieldsOf x fields = [] ∨
              categoricalFieldsOf x fields (numericFieldsOf x fields) = [] := by
            simpa using hguard
          constructor
          · left
            simp [generateAutoVisualizationsCore, hmiss, hk, hcond]
          · simp [generateAutoVisualizationsCore, hmiss, hk, hcond]
    | null =>
      simp only [generateAutoVisualizationsCore, hmiss]
      exact ⟨Or.inl (by trivial), by trivial⟩
    | bool b =>
      simp only [generateAutoVisualizationsCore, hmiss]
      exact ⟨Or.inl (by trivial), by trivial⟩
    | num n =>
      simp only [generateAutoVisualizationsCore, hmiss]
      exact ⟨Or.inl (by trivial), by trivial⟩
    | str s =>
      simp only [generateAutoVisualizationsCore, hmiss]
      exact ⟨Or.inl (by trivial), by trivial⟩
    | obj fs =>
      simp only [generateAutoVisualizationsCore, hmiss]
      exact ⟨Or.inl (by trivial), by trivial⟩
  obtain ⟨hres, hcalls⟩ := hcore
  constructor
  · cases hres with
    | inl h => rw [generateAutoVisualizations_vis_ok h]
    | inr h => rw [generateAutoVisualizations_vis_err h]
  · rw [(generateAutoVisualizations_proj data oracle cache now).1, hcalls]

/-- C9 (witness): records whose only field is numeric (no categorical
field) yield the empty sequence with zero model calls. -/
theorem auto_empty_without_model_call_witness :
    (generateAutoVisualizations (Json.arr [Json.obj [("v", Json.num (JNum.ofNat 1))]])
        (fun _ => ModelOutcome.ok okChartResponse) [] 0).visualizations = [] ∧
    (generateAutoVisualizations (Json.arr [Json.obj [("v", Json.num (JNum.ofNat 1))]])
        (fun _ => ModelOutcome.ok okChartResponse) [] 0).modelCalls = 0 :=
  auto_empty_without_model_call (Json.arr [Json.obj [("v", Json.num (JNum.ofNat 1))]])
    (fun _ => ModelOutcome.ok okChartResponse) [] 0 rfl rfl

/-- C10: the cache is written only on the success path — when every
attempt of a run fails (after a miss and a throw-free prompt phase),
the caller receives the deterministic fallback chart, the cache is
returned unchanged, and any later call whose lookup on that unchanged
cache also misses makes at least one model call rather than replaying
the fallback. -/
theorem fallback_does_not_write_cache (req : String) (data : Json)
    (oracle : Nat → ModelOutcome) (cache : VizCache) (now : Int) (rand : Nat → Nat)
    (hmiss : vizCacheFresh cache (vizCacheKey req data) now = none)
    (hpre : vizPre data = Except.ok ())
    (hfail : ∀ i, i < 3 → ∃ m, vizAttemptResult (oracle i) req data = Except.error m) :
    (generateVisualization req data oracle cache now rand).config =
      generateFallbackVisualization data req rand ∧
    (generateVisualization req data oracle cache now rand).cache = cache ∧
    (∀ (oracle2 : Nat → ModelOutcome) (now2 : Int) (rand2 : Nat → Nat),
      vizCacheFresh cache (vizCacheKey req data) now2 = none →
      1 ≤ (generateVisualization req data oracle2
            (generateVisualization req data oracle cache now rand).cache now2
            rand2).modelCalls) := by
  obtain ⟨e, he⟩ := vizAttempts_all_fail 3 1000 0 [] ""
    (fun i h1 h2 => hfail i (by omega))
  have hcore := generateVisualizationCore_exhaust hmiss hpre he
  have hcache : (generateVisualization req data oracle cache now rand).cache = cache :=
    (generateVisualization_proj req data oracle cache now rand).2.2.trans hcore.2
  refine ⟨generateVisualization_config_err hcore.1, hcache, ?_⟩
  intro oracle2 now2 rand2 hm2
  rw [hcache]
  exact generateVisualization_calls_pos hm2 hpre

/-- C10 (witness): an exhausting concrete run leaves the empty cache
empty and makes at least one (in fact three) model calls. -/
theorem fallback_does_not_write_cache_witness :
    (generateVisualization "x10" (Json.arr []) (fun _ => ModelOutcome.err "boom")
        [] 0 (fun _ => 0)).cache = [] ∧
    (generateVisualization "x10" (Json.arr []) (fun _ => ModelOutcome.err "boom")
        [] 0 (fun _ => 0)).config =
      generateFallbackVisualization (Json.arr []) "x10" (fun _ => 0) :=
  ⟨(fallback_does_not_write_cache "x10" (Json.arr []) (fun _ => ModelOutcome.err "boom")
      [] 0 (fun _ => 0) rfl rfl (fun i _ => ⟨"boom", rfl⟩)).2.1,
   (fallback_does_not_write_cache "x10" (Json.arr []) (fun _ => ModelOutcome.err "boom")
      [] 0 (fun _ => 0) rfl rfl (fun i _ => ⟨"boom", rfl⟩)).1⟩
